import Mathlib

/-!
# Verification of the news-aggregation skill

A shallow embedding of `src/skills/news-daily/scripts/fetch_news.py` and
proofs about the properties its specification states.

The embedding models the Python program's dynamic semantics over a JSON-like
value type: attribute/key access on non-dict values raises (AttributeError /
TypeError / KeyError), `dict.get` supplies defaults, truthiness follows
Python's rules, and fallible code returns `Except PyErr`.  External
collaborators (the HTTP stack behind `fetch`, BeautifulSoup's DOM selection)
are modelled as oracles supplied through an `Env` record; everything the
repository's own code does with the oracle results is translated line by
line from the source.
-/

set_option maxRecDepth 10000

namespace FetchNews

/-- JSON-like values, the payload type of every API response, configuration
record and item field in `fetch_news.py` (Python `None`/`bool`/`int`/`str`/
`list`/`dict`). -/
inductive Json where
  | null
  | bool (b : Bool)
  | num (n : Int)
  | str (s : String)
  | arr (xs : List Json)
  | obj (fields : List (String × Json))

/-- Python exceptions that the embedded code can raise. `fetchError` models
the `Exception("Failed to fetch ...")` wrapper raised by `fetch` (line 47). -/
inductive PyErr where
  | attributeError
  | typeError
  | keyError
  | fetchError (cause : PyErr)
deriving Repr, DecidableEq

/-- Python truthiness (`bool(x)`): empty containers, empty strings, zero,
`None` and `False` are falsy. -/
def truthy : Json → Bool
  | .null => false
  | .bool b => b
  | .num n => n != 0
  | .str s => s != ""
  | .arr xs => !xs.isEmpty
  | .obj fs => !fs.isEmpty

/-- Whether a value is a Python dict. -/
def Json.isObj : Json → Bool
  | .obj _ => true
  | _ => false

/-- Total field lookup with default: on a dict, the field's value or the
default; on anything else, the default (only used on the spec side and under
an `isObj` hypothesis — the raising behaviour is `pyGet`). -/
def Json.getD (j : Json) (k : String) (d : Json) : Json :=
  match j with
  | .obj fs => (fs.lookup k).getD d
  | _ => d

/-- Python `x.get(k, default)`: defined on dicts only; any other receiver
raises `AttributeError` (no `.get` attribute). -/
def pyGet (j : Json) (k : String) (d : Json) : Except PyErr Json :=
  match j with
  | .obj fs => .ok ((fs.lookup k).getD d)
  | _ => .error .attributeError

/-- Python subscript `x[k]` with a string key: `KeyError` on a dict without
the key, `TypeError` on non-dict receivers (string/list indices must be
integers or slices). -/
def pySubscript (j : Json) (k : String) : Except PyErr Json :=
  match j with
  | .obj fs =>
    match fs.lookup k with
    | some v => .ok v
    | none => .error .keyError
  | _ => .error .typeError

/-- Substring test on character lists, for Python `"k" in someString`. -/
def charsContain (needle : List Char) : List Char → Bool
  | [] => needle.isEmpty
  | c :: rest => needle.isPrefixOf (c :: rest) || charsContain needle rest

/-- Python `k in x` for a string key `k`: key membership on dicts, substring
test on strings, element membership on lists, `TypeError` otherwise. -/
def pyIn (k : String) (j : Json) : Except PyErr Bool :=
  match j with
  | .obj fs => .ok (fs.lookup k).isSome
  | .str s => .ok (charsContain k.data s.data)
  | .arr xs => .ok (xs.any (fun x => match x with | .str t => t == k | _ => false))
  | _ => .error .typeError

/-- Python iteration `for x in j`: the elements of a list, the keys of a
dict, the characters of a string; `TypeError` otherwise. -/
def pyIterate (j : Json) : Except PyErr (List Json) :=
  match j with
  | .arr xs => .ok xs
  | .obj fs => .ok (fs.map (fun kv => .str kv.1))
  | .str s => .ok (s.data.map (fun c => .str (String.singleton c)))
  | _ => .error .typeError

/-- Python `d.items()`: key/value pairs of a dict, `AttributeError`
otherwise. -/
def pyItems (j : Json) : Except PyErr (List (String × Json)) :=
  match j with
  | .obj fs => .ok fs
  | _ => .error .attributeError

/-- Python `x.copy()`: defined on dicts and lists; other receivers raise
`AttributeError`. -/
def pyCopy (j : Json) : Except PyErr Json :=
  match j with
  | .obj fs => .ok (.obj fs)
  | .arr xs => .ok (.arr xs)
  | _ => .error .attributeError

/-- Insert-or-replace on an association list, keeping the original position
of an existing key (Python dict assignment semantics). -/
def setField (fs : List (String × Json)) (k : String) (v : Json) : List (String × Json) :=
  if (fs.lookup k).isSome then
    fs.map (fun kv => if kv.1 == k then (k, v) else kv)
  else fs ++ [(k, v)]

/-- Python `x[k] = v` with a string key: assignment on dicts; `TypeError`
on any other receiver. -/
def pySetItem (j : Json) (k : String) (v : Json) : Except PyErr Json :=
  match j with
  | .obj fs => .ok (.obj (setField fs k v))
  | _ => .error .typeError

mutual
/-- Python `repr` of a value, approximated: container renderings follow
Python's `repr` format (string escaping inside `repr` is not reproduced,
which no modelled code path depends on). -/
def pyRepr : Json → String
  | .null => "None"
  | .bool b => if b then "True" else "False"
  | .num n => toString n
  | .str s => "\x27" ++ s ++ "\x27"
  | .arr xs => "[" ++ pyReprList xs ++ "]"
  | .obj fs => "\x7b" ++ pyReprFields fs ++ "\x7d"

def pyReprList : List Json → String
  | [] => ""
  | [x] => pyRepr x
  | x :: xs => pyRepr x ++ ", " ++ pyReprList xs

def pyReprFields : List (String × Json) → String
  | [] => ""
  | [kv] => "\x27" ++ kv.1 ++ "\x27: " ++ pyRepr kv.2
  | kv :: fs => "\x27" ++ kv.1 ++ "\x27: " ++ pyRepr kv.2 ++ ", " ++ pyReprFields fs
end

/-- Python `str(x)` as used in f-string interpolation. -/
def pyStr : Json → String
  | .str s => s
  | .null => "None"
  | .bool b => if b then "True" else "False"
  | .num n => toString n
  | .arr xs => pyRepr (.arr xs)
  | .obj fs => pyRepr (.obj fs)

/-- Python `x == "s"` for a string literal: true exactly on the equal
string (no non-string value compares equal to a `str`). -/
def Json.isStr (j : Json) (s : String) : Bool :=
  match j with
  | .str t => t == s
  | _ => false

/-! ## The text sanitizer (`strip_html`, lines 50–57)

`strip_html` calls into BeautifulSoup/lxml; we model the library's
extraction on the fragment level: character runs between `<` and `>` are
tag markup and produce no text, the remaining runs are text nodes whose
HTML entities are decoded, `get_text(separator=" ", strip=True)` strips
each text node, drops the empty ones and joins the rest with one space.
`re.sub(r'\s+', ' ', text)` and `str.strip` follow the Python semantics
exactly. -/

/-- Split a fragment into its text segments; the flag records whether the
scanner is inside `<...>` markup (whose characters produce no text). -/
def textSegs : Bool → List Char → List (List Char)
  | _, [] => [[]]
  | false, c :: rest =>
    if c = '<' then [] :: textSegs true rest
    else
      match textSegs false rest with
      | [] => [[c]]
      | s :: ss => (c :: s) :: ss
  | true, c :: rest =>
    if c = '>' then textSegs false rest
    else textSegs true rest

/-- Decode the HTML entities appearing in a text node (the named entities
relevant to markup significance; others pass through unchanged, matching a
single decoding pass). -/
def decodeEntities : List Char → List Char
  | [] => []
  | c :: rest =>
    if c = '&' then
      match rest with
      | 'l' :: 't' :: ';' :: r => '<' :: decodeEntities r
      | 'g' :: 't' :: ';' :: r => '>' :: decodeEntities r
      | 'a' :: 'm' :: 'p' :: ';' :: r => '&' :: decodeEntities r
      | 'q' :: 'u' :: 'o' :: 't' :: ';' :: r => '"' :: decodeEntities r
      | r2 => '&' :: decodeEntities r2
    else c :: decodeEntities rest

/-- `re.sub(r'\s+', ' ', ·)`: each maximal whitespace run becomes one
space.  The flag records whether the previous character was whitespace. -/
def collapseWsAux : Bool → List Char → List Char
  | _, [] => []
  | prevWs, c :: rest =>
    if c.isWhitespace then
      if prevWs then collapseWsAux true rest
      else ' ' :: collapseWsAux true rest
    else c :: collapseWsAux false rest

/-- Drop trailing whitespace (the right half of Python `str.strip`). -/
def trimRight : List Char → List Char
  | [] => []
  | c :: rest =>
    match trimRight rest with
    | [] => if c.isWhitespace then [] else [c]
    | r => c :: r

/-- Python `str.strip()` on character lists. -/
def pyStrip (cs : List Char) : List Char :=
  trimRight (cs.dropWhile Char.isWhitespace)

/-- `soup.get_text(separator=" ", strip=True)`: stripped text nodes,
empties dropped, joined with a single space. -/
def getText (cs : List Char) : List (List Char) :=
  ((textSegs false cs).map (fun seg => pyStrip (decodeEntities seg))).filter
    (fun seg => !seg.isEmpty)

/-- Join segments with single spaces (`" ".join`). -/
def joinSpace : List (List Char) → List Char
  | [] => []
  | [s] => s
  | s :: ss => s ++ ' ' :: joinSpace ss

/-- `strip_html` (lines 50–57): empty (falsy) input short-circuits to `""`;
otherwise extract text, collapse whitespace runs, strip the ends. -/
def strip_html (text : String) : String :=
  if text = "" then ""
  else String.mk (pyStrip (collapseWsAux false (joinSpace (getText text.data))))

/-- `strip_html` applied to an arbitrary value, as the WallStreetCN "live"
branch does (line 151): falsy input returns `""` (the `if not text` guard),
a truthy string is stripped, any other truthy value makes BeautifulSoup
raise `TypeError`. -/
def pyStripHtml (j : Json) : Except PyErr Json :=
  if !truthy j then .ok (.str "")
  else
    match j with
    | .str s => .ok (.str (strip_html s))
    | _ => .error .typeError

/-! ## Data model -/

/-- The `NewsItem` dataclass (lines 20–28).  Fields holding values copied
out of API responses or configuration keep the dynamic `Json` type;
`platform` is a string literal fixed per source class.  `timestamp` models
`datetime.now()` as the abstract clock value of the run. -/
structure NewsItem where
  title : Json
  url : Json
  platform : String
  platform_icon : Json
  raw_category : Json
  content : Json := .str ""
  timestamp : Option Nat := none

/-- An anchor-like node as BeautifulSoup hands it to the HTML sources:
`text` is the node's `get_text(strip=True)` result, `href` its
`get("href", "")` attribute. -/
structure ATag where
  text : String
  href : String
deriving Repr, DecidableEq

/-- The fields `NewsSource.__init__` stores (lines 66–73): configuration
values keep their dynamic type; `enabled` defaults to `True` via
`config.get("enabled", True)`. -/
structure SourceBase where
  platform : String
  name : Json
  icon : Json
  srcType : Json
  category : Json
  enabled : Json

/-- The subclass-specific constructor state: per-variant URL, endpoint
table or query parameters (lines 92–96, 120–123, 352–356, …). -/
inductive SourceImpl where
  | zhihu (url : Json)
  | wallstreetcn (endpoints : Json)
  | hupu (url : Json)
  | thepaper (url : Json)
  | hackernews (url : Json)
  | producthunt (url : Json)
  | github (url : Json)
  | sspai (url : Json) (params : Json)

/-- A constructed source object. -/
structure Source where
  base : SourceBase
  impl : SourceImpl

/-- The external world: the retried `fetch` transport (url, params ↦
parsed-JSON-or-text or a raised exception), the run clock, and
BeautifulSoup's selection results for each HTML source's selector (a
non-string transport result may make the library raise, hence `Except`).
For Hupu / HackerNews / GitHub a row is the per-node anchor lookup
(`none` when the inner selector finds nothing); for ProductHunt a row is
the optional title text and the optional link href. -/
structure Env where
  transport : Json → Json → Except PyErr Json
  now : Nat
  hupuDom : Json → Except PyErr (List (Option ATag))
  hackernewsDom : Json → Except PyErr (List (Option ATag))
  githubDom : Json → Except PyErr (List (Option ATag))
  producthuntDom : Json → Except PyErr (List (Option String × Option String))

/-! ## Source constructors (`__init__`) -/

/-- `NewsSource.__init__` (lines 66–73): missing required keys raise
`KeyError`; a non-dict config raises `TypeError` at the first subscript. -/
def mkBase (platform : String) (config : Json) : Except PyErr SourceBase := do
  let name ← pySubscript config "name"
  let icon ← pySubscript config "icon"
  let srcType ← pySubscript config "type"
  let category ← pySubscript config "category"
  let enabled ← pyGet config "enabled" (.bool true)
  pure { platform, name, icon, srcType, category, enabled }

/-- The registry keys of `SOURCE_MAP` (lines 382–391). -/
inductive SourceKind where
  | zhihu | wallstreetcn | hupu | thepaper | hackernews | producthunt | github | sspai
deriving Repr, DecidableEq

/-- The platform id each subclass passes to `super().__init__`. -/
def SourceKind.platformId : SourceKind → String
  | .zhihu => "zhihu"
  | .wallstreetcn => "wallstreetcn"
  | .hupu => "hupu"
  | .thepaper => "thepaper"
  | .hackernews => "hackernews"
  | .producthunt => "producthunt"
  | .github => "github"
  | .sspai => "sspai"

/-- `SOURCE_MAP` (lines 382–391). -/
def SOURCE_MAP : List (String × SourceKind) :=
  [("zhihu", .zhihu), ("wallstreetcn", .wallstreetcn), ("hupu", .hupu),
   ("thepaper", .thepaper), ("hackernews", .hackernews),
   ("producthunt", .producthunt), ("github", .github), ("sspai", .sspai)]

/-- Construct a source from its config, as `source_class(platform_config)`
does: the base constructor runs first, then the subclass reads its own
keys (`url`, `endpoints`, `params`). -/
def constructSource (k : SourceKind) (config : Json) : Except PyErr Source := do
  let base ← mkBase k.platformId config
  match k with
  | .zhihu => do
    let url ← pySubscript config "url"
    pure ⟨base, .zhihu url⟩
  | .wallstreetcn => do
    let endpoints ← pySubscript config "endpoints"
    pure ⟨base, .wallstreetcn endpoints⟩
  | .hupu => do
    let url ← pySubscript config "url"
    pure ⟨base, .hupu url⟩
  | .thepaper => do
    let url ← pySubscript config "url"
    pure ⟨base, .thepaper url⟩
  | .hackernews => do
    let url ← pySubscript config "url"
    pure ⟨base, .hackernews url⟩
  | .producthunt => do
    let url ← pySubscript config "url"
    pure ⟨base, .producthunt url⟩
  | .github => do
    let url ← pySubscript config "url"
    pure ⟨base, .github url⟩
  | .sspai => do
    let url ← pySubscript config "url"
    let params ← pyGet config "params" (.obj [])
    pure ⟨base, .sspai url params⟩

/-! ## API-kind sources -/

/-- One loop iteration of `ZhihuSource._fetch_api` (lines 101–116):
attribute access on a non-dict record or nested field raises; a falsy
title skips the record. -/
def zhihuStep (base : SourceBase) (now : Nat) (acc : List NewsItem) (item : Json) :
    Except PyErr (List NewsItem) := do
  let target ← pyGet item "target" (.obj [])
  let titleArea ← pyGet target "title_area" (.obj [])
  let title ← pyGet titleArea "text" (.str "")
  if !truthy title then pure acc
  else do
    let url ← pyGet target "url" (.str "")
    let excerptArea ← pyGet target "excerpt_area" (.obj [])
    let content ← pyGet excerptArea "text" (.str "")
    pure (acc ++ [{ title, url, platform := base.platform, platform_icon := base.icon,
                    raw_category := base.category, content, timestamp := some now }])

/-- `ZhihuSource._fetch_api` after the transport call (lines 97–117). -/
def zhihuParse (base : SourceBase) (now : Nat) (data : Json) :
    Except PyErr (List NewsItem) := do
  if !(← pyIn "data" data) then pure []
  else do
    let d ← pySubscript data "data"
    let records ← pyIterate d
    records.foldlM (zhihuStep base now) []

/-- `ZhihuSource._fetch_api` including the transport call on `self.url`
(line 98); a transport failure propagates. -/
def zhihuFetchApi (env : Env) (base : SourceBase) (url : Json) :
    Except PyErr (List NewsItem) × Nat :=
  match env.transport url .null with
  | .error e => (.error e, 1)
  | .ok data => (zhihuParse base env.now data, 1)

/-- One "live" loop iteration of `WallStreetCNSource._parse_endpoint`
(lines 147–161): the raw content is truthiness-checked, stripped of HTML,
and checked again. -/
def wscnLiveStep (base : SourceBase) (now : Nat) (acc : List NewsItem) (item : Json) :
    Except PyErr (List NewsItem) := do
  let content0 ← pyGet item "content" (.str "")
  if !truthy content0 then pure acc
  else do
    let content ← pyStripHtml content0
    if !truthy content then pure acc
    else
      pure (acc ++ [{ title := content, url := .str "", platform := base.platform,
                      platform_icon := base.icon, raw_category := base.category,
                      timestamp := some now }])

/-- One "news"/"hot" loop iteration of `WallStreetCNSource._parse_endpoint`
(lines 164–195; the two branches are identical). -/
def wscnArticleStep (base : SourceBase) (now : Nat) (acc : List NewsItem) (item : Json) :
    Except PyErr (List NewsItem) := do
  let article ← pyGet item "article" .null
  if !truthy article then pure acc
  else do
    let title ← pyGet article "title" (.str "")
    if !truthy title then pure acc
    else do
      let uri ← pyGet article "uri" (.str "")
      pure (acc ++ [{ title, url := uri, platform := base.platform,
                      platform_icon := base.icon, raw_category := base.category,
                      timestamp := some now }])

/-- `WallStreetCNSource._parse_endpoint` (lines 140–197): the guard
`"data" not in data or "items" not in data["data"]` short-circuits, then
the branch for the endpoint key iterates `data["data"]["items"]`; an
unknown key yields no items. -/
def wscnParseEndpoint (base : SourceBase) (now : Nat) (key : String) (data : Json) :
    Except PyErr (List NewsItem) := do
  if !(← pyIn "data" data) then pure []
  else do
    let d ← pySubscript data "data"
    if !(← pyIn "items" d) then pure []
    else if key == "live" then do
      let d2 ← pySubscript data "data"
      let its ← pySubscript d2 "items"
      let records ← pyIterate its
      records.foldlM (wscnLiveStep base now) []
    else if key == "news" then do
      let d2 ← pySubscript data "data"
      let its ← pySubscript d2 "items"
      let records ← pyIterate its
      records.foldlM (wscnArticleStep base now) []
    else if key == "hot" then do
      let d2 ← pySubscript data "data"
      let its ← pySubscript d2 "items"
      let records ← pyIterate its
      records.foldlM (wscnArticleStep base now) []
    else pure []

/-- One endpoint iteration of `WallStreetCNSource._fetch_api` (lines
128–136).  The url/params reads sit outside the `try` and abort the whole
fetch; the transport call and the parse sit inside it, so their failures
only lose this endpoint's items.  The second component counts transport
calls made so far. -/
def wscnEndpoint (env : Env) (base : SourceBase)
    (st : Except PyErr (List NewsItem) × Nat) (kv : String × Json) :
    Except PyErr (List NewsItem) × Nat :=
  match st with
  | (.error e, n) => (.error e, n)
  | (.ok acc, n) =>
    match pySubscript kv.2 "url" with
    | .error e => (.error e, n)
    | .ok url =>
      match pyGet kv.2 "params" (.obj []) with
      | .error e => (.error e, n)
      | .ok params =>
        match env.transport url params with
        | .error _ => (.ok acc, n + 1)
        | .ok data =>
          match wscnParseEndpoint base env.now kv.1 data with
          | .error _ => (.ok acc, n + 1)
          | .ok items => (.ok (acc ++ items), n + 1)

/-- `WallStreetCNSource._fetch_api` (lines 125–138): iterate
`self.endpoints.items()` and merge the per-endpoint results. -/
def wscnFetchApi (env : Env) (base : SourceBase) (endpoints : Json) :
    Except PyErr (List NewsItem) × Nat :=
  match pyItems endpoints with
  | .error e => (.error e, 0)
  | .ok eps => eps.foldl (wscnEndpoint env base) (.ok [], 0)

/-- One loop iteration of `ThePaperSource._fetch_api` (lines 242–254): a
truthy `contId` builds the permalink by f-string interpolation, otherwise
the url is empty. -/
def thepaperStep (base : SourceBase) (now : Nat) (acc : List NewsItem) (item : Json) :
    Except PyErr (List NewsItem) := do
  let title ← pyGet item "name" (.str "")
  if !truthy title then pure acc
  else do
    let contId ← pyGet item "contId" (.str "")
    let url : Json :=
      if truthy contId then
        .str ("https://www.thepaper.cn/newsDetail_forward_" ++ pyStr contId)
      else .str ""
    pure (acc ++ [{ title, url, platform := base.platform, platform_icon := base.icon,
                    raw_category := base.category, timestamp := some now }])

/-- `ThePaperSource._fetch_api` after the transport call (lines 237–256):
note `data["data"]["hotNews"]` is subscripted directly (a missing
`hotNews` key raises `KeyError`). -/
def thepaperParse (base : SourceBase) (now : Nat) (data : Json) :
    Except PyErr (List NewsItem) := do
  if !(← pyIn "data" data) then pure []
  else do
    let d ← pySubscript data "data"
    let hot ← pySubscript d "hotNews"
    let records ← pyIterate hot
    records.foldlM (thepaperStep base now) []

/-- `ThePaperSource._fetch_api` including the transport call (line 238). -/
def thepaperFetchApi (env : Env) (base : SourceBase) (url : Json) :
    Except PyErr (List NewsItem) × Nat :=
  match env.transport url .null with
  | .error e => (.error e, 1)
  | .ok data => (thepaperParse base env.now data, 1)

/-- One loop iteration of `SspaiSource._fetch_api` (lines 365–377): the
item's `url` field is filled from the record's `id` field, defaulting to
`""`. -/
def sspaiStep (base : SourceBase) (now : Nat) (acc : List NewsItem) (item : Json) :
    Except PyErr (List NewsItem) := do
  let title ← pyGet item "title" (.str "")
  if !truthy title then pure acc
  else do
    let url ← pyGet item "id" (.str "")
    let content ← pyGet item "summary" (.str "")
    pure (acc ++ [{ title, url, platform := base.platform, platform_icon := base.icon,
                    raw_category := base.category, content, timestamp := some now }])

/-- `SspaiSource._fetch_api` after the transport call (lines 358–379). -/
def sspaiParse (base : SourceBase) (now : Nat) (data : Json) :
    Except PyErr (List NewsItem) := do
  if !(← pyIn "data" data) then pure []
  else do
    let d ← pySubscript data "data"
    let records ← pyIterate d
    records.foldlM (sspaiStep base now) []

/-- `SspaiSource._fetch_api` including the parameter preparation and the
transport call (lines 358–361): `self.params.copy()` then
`params["created_at"] = int(datetime.now().timestamp())`. -/
def sspaiFetchApi (env : Env) (base : SourceBase) (url params0 : Json) :
    Except PyErr (List NewsItem) × Nat :=
  match (do
      let p ← pyCopy params0
      pySetItem p "created_at" (.num env.now) : Except PyErr Json) with
  | .error e => (.error e, 0)
  | .ok params =>
    match env.transport url params with
    | .error e => (.error e, 1)
    | .ok data => (sspaiParse base env.now data, 1)

/-! ## HTML-kind sources -/

/-- Python `s.startswith(p)`. -/
def pyStartswith (s p : String) : Bool := p.data.isPrefixOf s.data

/-- The href rewrite of `HupuSource._fetch_html` (lines 218–219): a
non-empty href that does not start with `"http"` gets the origin
prefixed. -/
def hupuUrl (href : String) : String :=
  if href != "" && !pyStartswith href "http" then "https://bbs.hupu.com" ++ href
  else href

/-- One node iteration of `HupuSource._fetch_html` (lines 210–227):
missing anchor or empty title skips the node. -/
def hupuRow (base : SourceBase) (now : Nat) (acc : List NewsItem) (row : Option ATag) :
    List NewsItem :=
  match row with
  | none => acc
  | some a =>
    if a.text == "" then acc
    else acc ++ [{ title := .str a.text, url := .str (hupuUrl a.href),
                   platform := base.platform, platform_icon := base.icon,
                   raw_category := base.category, timestamp := some now }]

/-- `HupuSource._fetch_html` (lines 205–229). -/
def hupuFetchHtml (env : Env) (base : SourceBase) (url : Json) :
    Except PyErr (List NewsItem) × Nat :=
  match env.transport url .null with
  | .error e => (.error e, 1)
  | .ok html =>
    match env.hupuDom html with
    | .error e => (.error e, 1)
    | .ok rows => (.ok (rows.foldl (hupuRow base env.now) []), 1)

/-- One node iteration of `HackerNewsSource._fetch_html` (lines 269–284):
the href is passed through unchanged — there is no origin rewrite in this
source. -/
def hackernewsRow (base : SourceBase) (now : Nat) (acc : List NewsItem)
    (row : Option ATag) : List NewsItem :=
  match row with
  | none => acc
  | some a =>
    if a.text == "" then acc
    else acc ++ [{ title := .str a.text, url := .str a.href,
                   platform := base.platform, platform_icon := base.icon,
                   raw_category := base.category, timestamp := some now }]

/-- `HackerNewsSource._fetch_html` (lines 264–286). -/
def hackernewsFetchHtml (env : Env) (base : SourceBase) (url : Json) :
    Except PyErr (List NewsItem) × Nat :=
  match env.transport url .null with
  | .error e => (.error e, 1)
  | .ok html =>
    match env.hackernewsDom html with
    | .error e => (.error e, 1)
    | .ok rows => (.ok (rows.foldl (hackernewsRow base env.now) []), 1)

/-- One node iteration of `ProductHuntSource._fetch_html` (lines 299–315):
`url` is the origin prefixed to the link's href when a link node exists,
else the empty string. -/
def producthuntRow (base : SourceBase) (now : Nat) (acc : List NewsItem)
    (row : Option String × Option String) : List NewsItem :=
  match row.1 with
  | none => acc
  | some t =>
    if t == "" then acc
    else
      let url : Json :=
        match row.2 with
        | some h => .str ("https://www.producthunt.com" ++ h)
        | none => .str ""
      acc ++ [{ title := .str t, url, platform := base.platform,
                platform_icon := base.icon, raw_category := base.category,
                timestamp := some now }]

/-- `ProductHuntSource._fetch_html` (lines 294–317). -/
def producthuntFetchHtml (env : Env) (base : SourceBase) (url : Json) :
    Except PyErr (List NewsItem) × Nat :=
  match env.transport url .null with
  | .error e => (.error e, 1)
  | .ok html =>
    match env.producthuntDom html with
    | .error e => (.error e, 1)
    | .ok rows => (.ok (rows.foldl (producthuntRow base env.now) []), 1)

/-- The href rewrite of `GitHubSource._fetch_html` (lines 338–339). -/
def githubUrl (href : String) : String :=
  if href != "" && !pyStartswith href "http" then "https://github.com" ++ href
  else href

/-- One node iteration of `GitHubSource._fetch_html` (lines 330–347): the
title is the anchor text with newlines removed and surrounding whitespace
stripped (line 334). -/
def githubRow (base : SourceBase) (now : Nat) (acc : List NewsItem) (row : Option ATag) :
    List NewsItem :=
  match row with
  | none => acc
  | some a =>
    let title := (a.text.replace "\n" "").trim
    if title == "" then acc
    else acc ++ [{ title := .str title, url := .str (githubUrl a.href),
                   platform := base.platform, platform_icon := base.icon,
                   raw_category := base.category, timestamp := some now }]

/-- `GitHubSource._fetch_html` (lines 325–349). -/
def githubFetchHtml (env : Env) (base : SourceBase) (url : Json) :
    Except PyErr (List NewsItem) × Nat :=
  match env.transport url .null with
  | .error e => (.error e, 1)
  | .ok html =>
    match env.githubDom html with
    | .error e => (.error e, 1)
    | .ok rows => (.ok (rows.foldl (githubRow base env.now) []), 1)

/-! ## The common `fetch` contract (lines 75–89) -/

/-- `self._fetch_api()`: the API-kind variants run their extraction, the
HTML-only classes inherit the base `pass` body, which returns Python
`None` (modelled as `Option.none`). -/
def fetchApiOf (env : Env) (s : Source) : Except PyErr (Option (List NewsItem)) × Nat :=
  match s.impl with
  | .zhihu url => ((zhihuFetchApi env s.base url).1.map some, (zhihuFetchApi env s.base url).2)
  | .wallstreetcn eps => ((wscnFetchApi env s.base eps).1.map some, (wscnFetchApi env s.base eps).2)
  | .thepaper url => ((thepaperFetchApi env s.base url).1.map some, (thepaperFetchApi env s.base url).2)
  | .sspai url params => ((sspaiFetchApi env s.base url params).1.map some, (sspaiFetchApi env s.base url params).2)
  | _ => (.ok none, 0)

/-- `self._fetch_html()`: dual to `fetchApiOf`. -/
def fetchHtmlOf (env : Env) (s : Source) : Except PyErr (Option (List NewsItem)) × Nat :=
  match s.impl with
  | .hupu url => ((hupuFetchHtml env s.base url).1.map some, (hupuFetchHtml env s.base url).2)
  | .hackernews url => ((hackernewsFetchHtml env s.base url).1.map some, (hackernewsFetchHtml env s.base url).2)
  | .producthunt url => ((producthuntFetchHtml env s.base url).1.map some, (producthuntFetchHtml env s.base url).2)
  | .github url => ((githubFetchHtml env s.base url).1.map some, (githubFetchHtml env s.base url).2)
  | _ => (.ok none, 0)

/-- `NewsSource.fetch` (lines 75–83): a disabled source returns `[]`
before any dispatch; the `type` field selects the strategy; any other
type returns `[]`.  The second component counts transport calls. -/
def Source.fetch (s : Source) (env : Env) : Except PyErr (Option (List NewsItem)) × Nat :=
  if !truthy s.base.enabled then (.ok (some []), 0)
  else if s.base.srcType.isStr "api" then fetchApiOf env s
  else if s.base.srcType.isStr "html" then fetchHtmlOf env s
  else (.ok (some []), 0)

/-! ## The aggregator (`fetch_all_news`, lines 394–415) -/

/-- One platform iteration of `fetch_all_news` (lines 398–413).  The
`enabled` read (line 399) happens before the `try` block, so it can raise;
everything from construction onward is caught, including the `TypeError`
from `len(items)` when a mismatched type made `fetch` return `None`. -/
def aggregateStep (env : Env) (acc : List NewsItem) (kv : String × Json) :
    Except PyErr (List NewsItem) := do
  let enabled ← pyGet kv.2 "enabled" (.bool true)
  if !truthy enabled then pure acc
  else
    match SOURCE_MAP.lookup kv.1 with
    | none => pure acc
    | some k =>
      match (do
          let src ← constructSource k kv.2
          match (src.fetch env).1 with
          | .error e => .error e
          | .ok none => .error .typeError
          | .ok (some items) => .ok items : Except PyErr (List NewsItem)) with
      | .error _ => pure acc
      | .ok items => pure (acc ++ items)

/-- `fetch_all_news` (lines 394–415), taking the already-loaded
configuration document (`load_config` is file I/O, out of scope). -/
def fetchAllNews (env : Env) (config : Json) : Except PyErr (List NewsItem) := do
  let platforms ← pySubscript config "platforms"
  let entries ← pyItems platforms
  entries.foldlM (aggregateStep env) []

/-! ## The transport retry policy (`fetch`, lines 37–47)

`fetch` delegates the actual HTTP exchange to `requests`; one attempt is
modelled as an oracle value: `ok` is a 2xx response already interpreted as
JSON-or-text, `error` is any network fault or non-2xx status.  The body's
`try/except` re-raises every failure wrapped in
`Exception("Failed to fetch ...")`, and the `tenacity` decorator
`@retry(stop=stop_after_attempt(3), ...)` re-invokes the body until it
succeeds or three attempts are spent (the backoff delays do not affect the
returned value). -/

/-- One invocation of the body of `fetch` (lines 38–47). -/
def fetchOnce (attempt : Except PyErr Json) : Except PyErr Json :=
  match attempt with
  | .ok v => .ok v
  | .error e => .error (.fetchError e)

/-- `fetch` as decorated (line 37): up to three attempts, returning the
first success, or the third failure once the attempt budget is spent. -/
def fetchWithRetry (attempts : Nat → Except PyErr Json) : Except PyErr Json :=
  match fetchOnce (attempts 1) with
  | .ok v => .ok v
  | .error _ =>
    match fetchOnce (attempts 2) with
    | .ok v => .ok v
    | .error _ => fetchOnce (attempts 3)

/-! ## Record shapes

For each API extractor we characterise which record shapes its attribute
accesses tolerate (`benign`) and which of those yield an item
(`wellFormed` = benign with a truthy title), together with the item that a
well-formed record produces. -/

/-- The field of a dict, `none` when the receiver is not a dict or lacks
the key. -/
def lookupField : Json → String → Option Json
  | .obj fs, k => fs.lookup k
  | _, _ => none

/-- The title a Zhihu record yields: `item["target"]["title_area"]["text"]`
with `{}`/`""` defaults at each level. -/
def zhihuTitle (r : Json) : Json :=
  ((r.getD "target" (.obj [])).getD "title_area" (.obj [])).getD "text" (.str "")

/-- Zhihu record shapes whose extraction cannot raise: the record and its
navigated sub-objects are dicts (the excerpt area is only touched when the
title is truthy). -/
def zhihuBenign (r : Json) : Bool :=
  r.isObj && (r.getD "target" (.obj [])).isObj
    && ((r.getD "target" (.obj [])).getD "title_area" (.obj [])).isObj
    && (!truthy (zhihuTitle r) || ((r.getD "target" (.obj [])).getD "excerpt_area" (.obj [])).isObj)

/-- A well-formed Zhihu record: benign with a truthy title. -/
def zhihuWf (r : Json) : Bool := zhihuBenign r && truthy (zhihuTitle r)

/-- The item a well-formed Zhihu record produces. -/
def zhihuItem (base : SourceBase) (now : Nat) (r : Json) : NewsItem :=
  { title := zhihuTitle r,
    url := (r.getD "target" (.obj [])).getD "url" (.str ""),
    platform := base.platform, platform_icon := base.icon,
    raw_category := base.category,
    content := ((r.getD "target" (.obj [])).getD "excerpt_area" (.obj [])).getD "text" (.str ""),
    timestamp := some now }

/-- Sspai record shapes whose extraction cannot raise: any dict. -/
def sspaiBenign (r : Json) : Bool := r.isObj

/-- A well-formed Sspai record: a dict with truthy `title`. -/
def sspaiWf (r : Json) : Bool := r.isObj && truthy (r.getD "title" (.str ""))

/-- The item a well-formed Sspai record produces: note `url` is copied
from the record's `id` field (with `""` default). -/
def sspaiItem (base : SourceBase) (now : Nat) (r : Json) : NewsItem :=
  { title := r.getD "title" (.str ""), url := r.getD "id" (.str ""),
    platform := base.platform, platform_icon := base.icon,
    raw_category := base.category, content := r.getD "summary" (.str ""),
    timestamp := some now }

/-- ThePaper record shapes whose extraction cannot raise: any dict. -/
def thepaperBenign (r : Json) : Bool := r.isObj

/-- A well-formed ThePaper record: a dict with truthy `name`. -/
def thepaperWf (r : Json) : Bool := r.isObj && truthy (r.getD "name" (.str ""))

/-- The item a well-formed ThePaper record produces. -/
def thepaperItem (base : SourceBase) (now : Nat) (r : Json) : NewsItem :=
  { title := r.getD "name" (.str ""),
    url := if truthy (r.getD "contId" (.str "")) then
        .str ("https://www.thepaper.cn/newsDetail_forward_" ++ pyStr (r.getD "contId" (.str "")))
      else .str "",
    platform := base.platform, platform_icon := base.icon,
    raw_category := base.category, timestamp := some now }

/-- The string content of a value, `""` for non-strings (spec-side
helper). -/
def jsonAsStr : Json → String
  | .str s => s
  | _ => ""

/-- WallStreetCN "live" record shapes whose extraction cannot raise: a
dict whose truthy `content` is a string (a truthy non-string would make
`strip_html` raise). -/
def wscnLiveBenign (r : Json) : Bool :=
  r.isObj && (match r.getD "content" (.str "") with
    | .str _ => true
    | c => !truthy c)

/-- A well-formed "live" record: non-empty string content that still has
text after HTML stripping. -/
def wscnLiveWf (r : Json) : Bool :=
  r.isObj && (match r.getD "content" (.str "") with
    | .str s => s != "" && strip_html s != ""
    | _ => false)

/-- The item a well-formed "live" record produces: the stripped content
becomes the title, the url is empty. -/
def wscnLiveItem (base : SourceBase) (now : Nat) (r : Json) : NewsItem :=
  { title := .str (strip_html (jsonAsStr (r.getD "content" (.str "")))),
    url := .str "", platform := base.platform, platform_icon := base.icon,
    raw_category := base.category, timestamp := some now }

/-- WallStreetCN "news"/"hot" record shapes whose extraction cannot raise:
a dict whose truthy `article` is a dict. -/
def wscnArticleBenign (r : Json) : Bool :=
  r.isObj && (!truthy (r.getD "article" .null) || (r.getD "article" .null).isObj)

/-- A well-formed "news"/"hot" record: a truthy dict `article` with truthy
`title`. -/
def wscnArticleWf (r : Json) : Bool :=
  r.isObj && truthy (r.getD "article" .null) && (r.getD "article" .null).isObj
    && truthy ((r.getD "article" .null).getD "title" (.str ""))

/-- The item a well-formed "news"/"hot" record produces. -/
def wscnArticleItem (base : SourceBase) (now : Nat) (r : Json) : NewsItem :=
  { title := (r.getD "article" .null).getD "title" (.str ""),
    url := (r.getD "article" .null).getD "uri" (.str ""),
    platform := base.platform, platform_icon := base.icon,
    raw_category := base.category, timestamp := some now }

/-! ## Per-endpoint and per-source contributions (spec side) -/

/-- What one WallStreetCN endpoint contributes to the merged result: `[]`
whenever its transport call or its parse fails, its parsed items
otherwise (it presupposes a readable endpoint config, which the code
requires before the `try`). -/
def wscnEndpointItems (env : Env) (base : SourceBase) (kv : String × Json) :
    List NewsItem :=
  match pySubscript kv.2 "url" with
  | .error _ => []
  | .ok url =>
    match pyGet kv.2 "params" (.obj []) with
    | .error _ => []
    | .ok params =>
      match env.transport url params with
      | .error _ => []
      | .ok data =>
        match wscnParseEndpoint base env.now kv.1 data with
        | .error _ => []
        | .ok items => items

/-- The `try` block of one aggregator iteration (lines 407–411): construct
the source, fetch, and read the length of the result (so a `None` result
from a type-mismatched source raises `TypeError` here). -/
def tryFetchItems (env : Env) (k : SourceKind) (config : Json) :
    Except PyErr (List NewsItem) :=
  match constructSource k config with
  | .error e => .error e
  | .ok src =>
    match (src.fetch env).1 with
    | .error e => .error e
    | .ok none => .error .typeError
    | .ok (some items) => .ok items

/-- What one platform entry contributes to `fetch_all_news`: nothing when
disabled, unregistered, or when construction/fetch raised; its items
otherwise. -/
def sourceItems (env : Env) (kv : String × Json) : List NewsItem :=
  match pyGet kv.2 "enabled" (.bool true) with
  | .error _ => []
  | .ok enabled =>
    if !truthy enabled then []
    else
      match SOURCE_MAP.lookup kv.1 with
      | none => []
      | some k =>
        match tryFetchItems env k kv.2 with
        | .ok items => items
        | .error _ => []

/-- The item an HTML row of Hupu yields, if any. -/
def hupuItemOfRow (base : SourceBase) (now : Nat) (row : Option ATag) : Option NewsItem :=
  match row with
  | none => none
  | some a =>
    if a.text == "" then none
    else some { title := .str a.text, url := .str (hupuUrl a.href),
                platform := base.platform, platform_icon := base.icon,
                raw_category := base.category, timestamp := some now }

/-- The item an HTML row of HackerNews yields, if any: its url is the
node's href, unchanged. -/
def hackernewsItemOfRow (base : SourceBase) (now : Nat) (row : Option ATag) :
    Option NewsItem :=
  match row with
  | none => none
  | some a =>
    if a.text == "" then none
    else some { title := .str a.text, url := .str a.href,
                platform := base.platform, platform_icon := base.icon,
                raw_category := base.category, timestamp := some now }

/-- The item an HTML row of GitHub yields, if any. -/
def githubItemOfRow (base : SourceBase) (now : Nat) (row : Option ATag) :
    Option NewsItem :=
  match row with
  | none => none
  | some a =>
    if (a.text.replace "\n" "").trim == "" then none
    else some { title := .str ((a.text.replace "\n" "").trim),
                url := .str (githubUrl a.href),
                platform := base.platform, platform_icon := base.icon,
                raw_category := base.category, timestamp := some now }

/-! ## Concrete environments for witnesses -/

/-- An environment whose transport always succeeds with a fixed response
and whose DOM oracles return fixed rows. -/
def fixedEnv (resp : Json) (rows : List (Option ATag)) : Env :=
  { transport := fun _ _ => .ok resp, now := 7,
    hupuDom := fun _ => .ok rows, hackernewsDom := fun _ => .ok rows,
    githubDom := fun _ => .ok rows, producthuntDom := fun _ => .ok [] }

/-- A ready-made API source base used in concrete instances. -/
def apiBase (p : String) : SourceBase :=
  { platform := p, name := .str "n", icon := .str "i", srcType := .str "api",
    category := .str "c", enabled := .bool true }

/-- A ready-made HTML source base used in concrete instances. -/
def htmlBase (p : String) : SourceBase :=
  { platform := p, name := .str "n", icon := .str "i", srcType := .str "html",
    category := .str "c", enabled := .bool true }

/-! ## Helper lemmas: Python primitives -/

theorem ok_bind {α β : Type} (a : α) (f : α → Except PyErr β) :
    (Except.ok a >>= f) = f a := rfl

theorem bind_pyGet {j : Json} (hj : j.isObj = true) (k : String) (d : Json)
    {β : Type} (f : Json → Except PyErr β) :
    (pyGet j k d >>= f) = f (j.getD k d) := by
  cases j <;> first | rfl | simp [Json.isObj] at hj

theorem pyIn_obj (k : String) (dfs : List (String × Json)) :
    pyIn k (.obj dfs) = .ok (dfs.lookup k).isSome := rfl

theorem pySubscript_lookup {dfs : List (String × Json)} {k : String} {v : Json}
    (hd : dfs.lookup k = some v) : pySubscript (.obj dfs) k = .ok v := by
  simp [pySubscript, hd]

/-! ## Helper lemmas: fold characterisations -/

/-- A record-loop whose step appends at most one item per benign record
computes the map of the item builder over the well-formed records. -/
theorem foldlM_step_eq {benign wf : Json → Bool} {item : Json → NewsItem}
    {step : List NewsItem → Json → Except PyErr (List NewsItem)}
    (hstep : ∀ acc r, benign r = true →
      step acc r = .ok (if wf r then acc ++ [item r] else acc)) :
    ∀ (records : List Json) (acc : List NewsItem),
      (∀ r ∈ records, benign r = true) →
      records.foldlM step acc = .ok (acc ++ (records.filter wf).map item) := by
  intro records
  induction records with
  | nil => intro acc _; simp [List.foldlM]; rfl
  | cons r rs ih =>
    intro acc hb
    have hr : benign r = true := hb r (List.mem_cons_self r rs)
    have hrs : ∀ x ∈ rs, benign x = true := fun x hx => hb x (List.mem_cons_of_mem r hx)
    show (step acc r >>= fun acc2 => rs.foldlM step acc2) = _
    rw [hstep acc r hr, ok_bind]
    by_cases hwf : wf r = true
    · rw [if_pos hwf, ih (acc ++ [item r]) hrs]
      simp [List.filter_cons, hwf]
    · rw [if_neg hwf, ih acc hrs]
      simp [List.filter_cons, Bool.of_not_eq_true hwf]

/-- Append the content of an optional element to an accumulator. -/
def appendOpt {β : Type} (acc : List β) (o : Option β) : List β :=
  match o with
  | none => acc
  | some b => acc ++ [b]

/-- A node-loop appending at most one item per row computes the
`filterMap` of the row-to-item function. -/
theorem foldl_eq_filterMap {α β : Type} (row : List β → α → List β)
    (itemOf : α → Option β)
    (h : ∀ acc r, row acc r = appendOpt acc (itemOf r)) :
    ∀ (rows : List α) (acc : List β),
      rows.foldl row acc = acc ++ rows.filterMap itemOf := by
  intro rows
  induction rows with
  | nil => intro acc; simp
  | cons r rs ih =>
    intro acc
    rw [List.foldl_cons, h]
    cases hit : itemOf r with
    | none => simp only [List.filterMap_cons, hit, appendOpt]; exact ih acc
    | some it =>
      simp only [List.filterMap_cons, hit, appendOpt]
      rw [ih (acc ++ [it])]
      simp

/-! ## Helper lemmas: per-source loop steps -/

theorem zhihuStep_eq (base : SourceBase) (now : Nat) (acc : List NewsItem) (r : Json)
    (hb : zhihuBenign r = true) :
    zhihuStep base now acc r =
      .ok (if zhihuWf r then acc ++ [zhihuItem base now r] else acc) := by
  have hb' := hb
  unfold zhihuBenign at hb'
  simp only [Bool.and_eq_true, Bool.or_eq_true, Bool.not_eq_true'] at hb'
  obtain ⟨⟨⟨h1, h2⟩, h3⟩, h4⟩ := hb'
  unfold zhihuStep zhihuWf zhihuItem
  rw [bind_pyGet h1, bind_pyGet h2, bind_pyGet h3, hb]
  simp only [Bool.true_and, zhihuTitle] at h4 ⊢
  by_cases ht : truthy (((r.getD "target" (.obj [])).getD "title_area" (.obj [])).getD "text" (.str "")) = true
  · have h4' : ((r.getD "target" (.obj [])).getD "excerpt_area" (.obj [])).isObj = true := by
      rcases h4 with h | h
      · rw [ht] at h; exact absurd h (by simp)
      · exact h
    simp only [ht, Bool.not_true, if_pos]
    rw [bind_pyGet h2, bind_pyGet h2, bind_pyGet h4']
    rfl
  · have ht' : truthy (((r.getD "target" (.obj [])).getD "title_area" (.obj [])).getD "text" (.str "")) = false :=
      Bool.of_not_eq_true ht
    simp only [ht', Bool.not_false, if_neg]
    rfl

theorem sspaiStep_eq (base : SourceBase) (now : Nat) (acc : List NewsItem) (r : Json)
    (hb : sspaiBenign r = true) :
    sspaiStep base now acc r =
      .ok (if sspaiWf r then acc ++ [sspaiItem base now r] else acc) := by
  have h1 : r.isObj = true := hb
  unfold sspaiStep sspaiWf sspaiItem
  rw [bind_pyGet h1, h1]
  simp only [Bool.true_and]
  by_cases ht : truthy (r.getD "title" (.str "")) = true
  · simp only [ht, Bool.not_true, if_pos]
    rw [bind_pyGet h1, bind_pyGet h1]
    rfl
  · have ht' := Bool.of_not_eq_true ht
    simp only [ht', Bool.not_false, if_neg]
    rfl

theorem thepaperStep_eq (base : SourceBase) (now : Nat) (acc : List NewsItem) (r : Json)
    (hb : thepaperBenign r = true) :
    thepaperStep base now acc r =
      .ok (if thepaperWf r then acc ++ [thepaperItem base now r] else acc) := by
  have h1 : r.isObj = true := hb
  unfold thepaperStep thepaperWf thepaperItem
  rw [bind_pyGet h1, h1]
  simp only [Bool.true_and]
  by_cases ht : truthy (r.getD "name" (.str "")) = true
  · simp only [ht, Bool.not_true, if_pos]
    rw [bind_pyGet h1]
    rfl
  · have ht' := Bool.of_not_eq_true ht
    simp only [ht', Bool.not_false, if_neg]
    rfl

theorem wscnLiveStep_eq (base : SourceBase) (now : Nat) (acc : List NewsItem) (r : Json)
    (hb : wscnLiveBenign r = true) :
    wscnLiveStep base now acc r =
      .ok (if wscnLiveWf r then acc ++ [wscnLiveItem base now r] else acc) := by
  have hb' := hb
  unfold wscnLiveBenign at hb'
  simp only [Bool.and_eq_true] at hb'
  obtain ⟨h1, h2⟩ := hb'
  unfold wscnLiveStep wscnLiveWf wscnLiveItem jsonAsStr
  rw [bind_pyGet h1, h1]
  simp only [Bool.true_and]
  cases hc : r.getD "content" (.str "") with
  | str s =>
    by_cases hs : s = ""
    · subst hs
      simp [truthy, pyStripHtml]
      try rfl
    · by_cases hstrip : strip_html s = ""
      · simp [pyStripHtml, truthy, hs, hstrip, ok_bind]
        try rfl
      · simp [pyStripHtml, truthy, hs, hstrip, ok_bind]
        try rfl
  | null =>
    simp [truthy, pyStripHtml]
    try rfl
  | bool b =>
    rw [hc] at h2
    have h2' : b = false := by simpa [truthy] using h2
    subst h2'
    simp [truthy]
    try rfl
  | num n =>
    rw [hc] at h2
    have h2' : (n != 0) = false := by simpa [truthy] using h2
    simp [truthy, h2']
    try rfl
  | arr xs =>
    rw [hc] at h2
    have h2' : xs.isEmpty = true := by simpa [truthy] using h2
    simp [truthy, h2']
    try rfl
  | obj fs =>
    rw [hc] at h2
    have h2' : fs.isEmpty = true := by simpa [truthy] using h2
    simp [truthy, h2']
    try rfl

theorem wscnArticleStep_eq (base : SourceBase) (now : Nat) (acc : List NewsItem) (r : Json)
    (hb : wscnArticleBenign r = true) :
    wscnArticleStep base now acc r =
      .ok (if wscnArticleWf r then acc ++ [wscnArticleItem base now r] else acc) := by
  have hb' := hb
  unfold wscnArticleBenign at hb'
  simp only [Bool.and_eq_true, Bool.or_eq_true, Bool.not_eq_true'] at hb'
  obtain ⟨h1, h2⟩ := hb'
  unfold wscnArticleStep wscnArticleWf wscnArticleItem
  rw [bind_pyGet h1, h1]
  simp only [Bool.true_and]
  by_cases ha : truthy (r.getD "article" .null) = true
  · have h2' : (r.getD "article" .null).isObj = true := by
      rcases h2 with h | h
      · rw [ha] at h; exact absurd h (by simp)
      · exact h
    simp only [ha, h2', Bool.not_true, Bool.true_and]
    rw [bind_pyGet h2']
    by_cases ht : truthy ((r.getD "article" .null).getD "title" (.str "")) = true
    · simp only [ht, Bool.not_true, if_pos]
      rw [bind_pyGet h2']
      rfl
    · have ht' := Bool.of_not_eq_true ht
      simp only [ht', Bool.not_false, if_neg]
      rfl
  · have ha' := Bool.of_not_eq_true ha
    simp only [ha', Bool.not_false, Bool.false_and, if_neg]
    rfl

/-! ## Helper lemmas: per-source parses -/

theorem pyIterate_arr (xs : List Json) : pyIterate (.arr xs) = .ok xs := rfl

theorem zhihuParse_eq (base : SourceBase) (now : Nat) (dfs : List (String × Json))
    (records : List Json) (hd : dfs.lookup "data" = some (.arr records))
    (hb : ∀ r ∈ records, zhihuBenign r = true) :
    zhihuParse base now (.obj dfs) =
      .ok ((records.filter zhihuWf).map (zhihuItem base now)) := by
  unfold zhihuParse
  simp only [pyIn_obj, hd, Option.isSome_some, ok_bind, Bool.not_true]
  rw [if_neg (by simp)]
  rw [pySubscript_lookup hd, ok_bind, pyIterate_arr, ok_bind]
  rw [foldlM_step_eq (fun acc r h => zhihuStep_eq base now acc r h) records [] hb]
  simp

theorem sspaiParse_eq (base : SourceBase) (now : Nat) (dfs : List (String × Json))
    (records : List Json) (hd : dfs.lookup "data" = some (.arr records))
    (hb : ∀ r ∈ records, sspaiBenign r = true) :
    sspaiParse base now (.obj dfs) =
      .ok ((records.filter sspaiWf).map (sspaiItem base now)) := by
  unfold sspaiParse
  simp only [pyIn_obj, hd, Option.isSome_some, ok_bind, Bool.not_true]
  rw [if_neg (by simp)]
  rw [pySubscript_lookup hd, ok_bind, pyIterate_arr, ok_bind]
  rw [foldlM_step_eq (fun acc r h => sspaiStep_eq base now acc r h) records [] hb]
  simp

theorem thepaperParse_eq (base : SourceBase) (now : Nat) (dfs d2 : List (String × Json))
    (records : List Json) (hd : dfs.lookup "data" = some (.obj d2))
    (hh : d2.lookup "hotNews" = some (.arr records))
    (hb : ∀ r ∈ records, thepaperBenign r = true) :
    thepaperParse base now (.obj dfs) =
      .ok ((records.filter thepaperWf).map (thepaperItem base now)) := by
  unfold thepaperParse
  simp only [pyIn_obj, hd, Option.isSome_some, ok_bind, Bool.not_true]
  rw [if_neg (by simp)]
  rw [pySubscript_lookup hd, ok_bind, pySubscript_lookup hh, ok_bind, pyIterate_arr, ok_bind]
  rw [foldlM_step_eq (fun acc r h => thepaperStep_eq base now acc r h) records [] hb]
  simp

theorem wscnParseLive_eq (base : SourceBase) (now : Nat) (dfs d2 : List (String × Json))
    (records : List Json) (hd : dfs.lookup "data" = some (.obj d2))
    (hi : d2.lookup "items" = some (.arr records))
    (hb : ∀ r ∈ records, wscnLiveBenign r = true) :
    wscnParseEndpoint base now "live" (.obj dfs) =
      .ok ((records.filter wscnLiveWf).map (wscnLiveItem base now)) := by
  unfold wscnParseEndpoint
  simp only [pyIn_obj, hd, Option.isSome_some, ok_bind, Bool.not_true]
  rw [if_neg (by simp)]
  rw [pySubscript_lookup hd, ok_bind]
  simp only [pyIn_obj, hi, Option.isSome_some, ok_bind, Bool.not_true]
  rw [if_neg (by simp)]
  rw [if_pos (by rfl)]
  rw [pySubscript_lookup hi, ok_bind, pyIterate_arr, ok_bind]
  rw [foldlM_step_eq (fun acc r h => wscnLiveStep_eq base now acc r h) records [] hb]
  simp

theorem wscnParseNews_eq (base : SourceBase) (now : Nat) (dfs d2 : List (String × Json))
    (records : List Json) (hd : dfs.lookup "data" = some (.obj d2))
    (hi : d2.lookup "items" = some (.arr records))
    (hb : ∀ r ∈ records, wscnArticleBenign r = true) :
    wscnParseEndpoint base now "news" (.obj dfs) =
      .ok ((records.filter wscnArticleWf).map (wscnArticleItem base now)) := by
  unfold wscnParseEndpoint
  simp only [pyIn_obj, hd, Option.isSome_some, ok_bind, Bool.not_true]
  rw [if_neg (by simp)]
  rw [pySubscript_lookup hd, ok_bind]
  simp only [pyIn_obj, hi, Option.isSome_some, ok_bind, Bool.not_true]
  rw [if_neg (by simp)]
  rw [if_neg (by simp), if_pos (by rfl)]
  rw [pySubscript_lookup hi, ok_bind, pyIterate_arr, ok_bind]
  rw [foldlM_step_eq (fun acc r h => wscnArticleStep_eq base now acc r h) records [] hb]
  simp

theorem wscnParseHot_eq (base : SourceBase) (now : Nat) (dfs d2 : List (String × Json))
    (records : List Json) (hd : dfs.lookup "data" = some (.obj d2))
    (hi : d2.lookup "items" = some (.arr records))
    (hb : ∀ r ∈ records, wscnArticleBenign r = true) :
    wscnParseEndpoint base now "hot" (.obj dfs) =
      .ok ((records.filter wscnArticleWf).map (wscnArticleItem base now)) := by
  unfold wscnParseEndpoint
  simp only [pyIn_obj, hd, Option.isSome_some, ok_bind, Bool.not_true]
  rw [if_neg (by simp)]
  rw [pySubscript_lookup hd, ok_bind]
  simp only [pyIn_obj, hi, Option.isSome_some, ok_bind, Bool.not_true]
  rw [if_neg (by simp)]
  rw [if_neg (by simp), if_neg (by simp), if_pos (by rfl)]
  rw [pySubscript_lookup hi, ok_bind, pyIterate_arr, ok_bind]
  rw [foldlM_step_eq (fun acc r h => wscnArticleStep_eq base now acc r h) records [] hb]
  simp

/-! ## Helper lemmas: fetch level and aggregator -/

theorem error_bind {α β : Type} (e : PyErr) (f : α → Except PyErr β) :
    (Except.error e >>= f) = Except.error e := rfl

theorem zhihuFetchApi_ok (env : Env) (base : SourceBase) (url : Json) (data : Json)
    (ht : env.transport url .null = .ok data) :
    zhihuFetchApi env base url = (zhihuParse base env.now data, 1) := by
  unfold zhihuFetchApi
  rw [ht]

theorem thepaperFetchApi_ok (env : Env) (base : SourceBase) (url : Json) (data : Json)
    (ht : env.transport url .null = .ok data) :
    thepaperFetchApi env base url = (thepaperParse base env.now data, 1) := by
  unfold thepaperFetchApi
  rw [ht]

theorem sspaiFetchApi_ok (env : Env) (base : SourceBase) (url : Json)
    (pfs : List (String × Json)) (data : Json)
    (ht : env.transport url (.obj (setField pfs "created_at" (.num env.now))) = .ok data) :
    sspaiFetchApi env base url (.obj pfs) = (sspaiParse base env.now data, 1) := by
  unfold sspaiFetchApi
  simp only [pyCopy, ok_bind, pySetItem]
  rw [ht]

/-- One WallStreetCN endpoint step, characterised: when the endpoint's
config is a dict with a `url` key, the step cannot fail and contributes
`wscnEndpointItems` with one transport call. -/
theorem wscnEndpoint_eq (env : Env) (base : SourceBase) (acc : List NewsItem) (n : Nat)
    (kv : String × Json) (u : Json) (hu : pySubscript kv.2 "url" = .ok u) :
    wscnEndpoint env base (.ok acc, n) kv =
      (.ok (acc ++ wscnEndpointItems env base kv), n + 1) := by
  have hobj : kv.2.isObj = true := by
    cases h : kv.2 <;> rw [h] at hu <;> first | rfl | simp [pySubscript] at hu
  unfold wscnEndpoint wscnEndpointItems
  rw [hu]
  have hp : pyGet kv.2 "params" (.obj []) = .ok (kv.2.getD "params" (.obj [])) := by
    cases h : kv.2 <;> rw [h] at hobj <;> first | rfl | simp [Json.isObj] at hobj
  rw [hp]
  cases htr : env.transport u (kv.2.getD "params" (.obj [])) with
  | error e => simp [htr]
  | ok data =>
    cases hpe : wscnParseEndpoint base env.now kv.1 data with
    | error e => simp [htr, hpe]
    | ok items => simp [htr, hpe]

/-- The endpoint fold of `WallStreetCNSource._fetch_api`, characterised. -/
theorem wscnFold_eq (env : Env) (base : SourceBase) :
    ∀ (eps : List (String × Json)) (acc : List NewsItem) (n : Nat),
      (∀ kv ∈ eps, ∃ u, pySubscript kv.2 "url" = .ok u) →
      eps.foldl (wscnEndpoint env base) (.ok acc, n) =
        (.ok (acc ++ eps.flatMap (wscnEndpointItems env base)), n + eps.length) := by
  intro eps
  induction eps with
  | nil => intro acc n _; simp
  | cons kv rest ih =>
    intro acc n h
    obtain ⟨u, hu⟩ := h kv (List.mem_cons_self kv rest)
    rw [List.foldl_cons, wscnEndpoint_eq env base acc n kv u hu]
    rw [ih (acc ++ wscnEndpointItems env base kv) (n + 1)
      (fun x hx => h x (List.mem_cons_of_mem kv hx))]
    simp [List.flatMap_cons]
    omega

/-- `WallStreetCNSource._fetch_api`, characterised: with readable endpoint
configs, the fetch never fails, contributes the concatenation of the
per-endpoint items, and makes one transport call per endpoint. -/
theorem wscnFetchApi_eq (env : Env) (base : SourceBase) (eps : List (String × Json))
    (h : ∀ kv ∈ eps, ∃ u, pySubscript kv.2 "url" = .ok u) :
    wscnFetchApi env base (.obj eps) =
      (.ok (eps.flatMap (wscnEndpointItems env base)), eps.length) := by
  unfold wscnFetchApi
  simp only [pyItems]
  rw [wscnFold_eq env base eps [] 0 h]
  simp

/-- The `try` body of one aggregator iteration equals `tryFetchItems`. -/
theorem aggregateTry_eq (env : Env) (k : SourceKind) (cfg : Json) :
    (do
      let src ← constructSource k cfg
      match (src.fetch env).1 with
      | .error e => .error e
      | .ok none => .error .typeError
      | .ok (some items) => (.ok items : Except PyErr (List NewsItem))) =
    tryFetchItems env k cfg := by
  unfold tryFetchItems
  cases h : constructSource k cfg with
  | error e => rw [error_bind]
  | ok src => rw [ok_bind]

/-- One aggregator iteration, characterised: on a dict platform entry the
step cannot fail and contributes exactly `sourceItems`. -/
theorem aggregateStep_eq (env : Env) (acc : List NewsItem) (kv : String × Json)
    (hobj : kv.2.isObj = true) :
    aggregateStep env acc kv = .ok (acc ++ sourceItems env kv) := by
  have hg : pyGet kv.2 "enabled" (.bool true) = .ok (kv.2.getD "enabled" (.bool true)) := by
    cases h : kv.2 <;> rw [h] at hobj <;> first | rfl | simp [Json.isObj] at hobj
  have hs : sourceItems env kv =
      (if (!truthy (kv.2.getD "enabled" (.bool true))) = true then []
       else
         match SOURCE_MAP.lookup kv.1 with
         | none => []
         | some k =>
           match tryFetchItems env k kv.2 with
           | .ok items => items
           | .error _ => []) := by
    unfold sourceItems
    rw [hg]
  rw [hs]
  unfold aggregateStep
  rw [hg, ok_bind]
  by_cases he : truthy (kv.2.getD "enabled" (.bool true)) = true
  · simp only [he, Bool.not_true]
    rw [if_neg (by simp), if_neg (by simp)]
    cases hl : SOURCE_MAP.lookup kv.1 with
    | none =>
      simp [hl]
      try rfl
    | some k =>
      have htry := aggregateTry_eq env k kv.2
      cases ht : tryFetchItems env k kv.2 with
      | error e =>
        rw [ht] at htry
        simp [htry, ht]
        try rfl
      | ok items =>
        rw [ht] at htry
        simp [htry, ht]
        try rfl
  · have he' := Bool.of_not_eq_true he
    simp only [he', Bool.not_false]
    simp
    try rfl

/-- The platform fold of `fetch_all_news`, characterised. -/
theorem aggregateFold_eq (env : Env) :
    ∀ (entries : List (String × Json)) (acc : List NewsItem),
      (∀ kv ∈ entries, kv.2.isObj = true) →
      entries.foldlM (aggregateStep env) acc =
        .ok (acc ++ entries.flatMap (sourceItems env)) := by
  intro entries
  induction entries with
  | nil => intro acc _; simp [List.foldlM]; rfl
  | cons kv rest ih =>
    intro acc h
    show (aggregateStep env acc kv >>= fun acc2 => rest.foldlM (aggregateStep env) acc2) = _
    rw [aggregateStep_eq env acc kv (h kv (List.mem_cons_self kv rest)), ok_bind]
    rw [ih (acc ++ sourceItems env kv) (fun x hx => h x (List.mem_cons_of_mem kv hx))]
    simp [List.flatMap_cons]

/-- `fetch_all_news`, characterised: once the configuration document has a
`platforms` dict whose entries are dicts, the aggregation cannot fail and
returns the concatenation, in declaration order, of each platform's
contribution. -/
theorem fetchAllNews_eq (env : Env) (config : Json) (ps : List (String × Json))
    (hp : pySubscript config "platforms" = .ok (.obj ps))
    (hobj : ∀ kv ∈ ps, kv.2.isObj = true) :
    fetchAllNews env config = .ok (ps.flatMap (sourceItems env)) := by
  unfold fetchAllNews
  rw [hp, ok_bind]
  simp only [pyItems, ok_bind]
  rw [aggregateFold_eq env ps [] hobj]
  simp

/-! ## Helper lemmas: HTML rows -/

theorem hupuRow_eq (base : SourceBase) (now : Nat) (acc : List NewsItem)
    (row : Option ATag) :
    hupuRow base now acc row = appendOpt acc (hupuItemOfRow base now row) := by
  cases row with
  | none => rfl
  | some a =>
    simp only [hupuRow, hupuItemOfRow, appendOpt]
    by_cases h : (a.text == "") = true
    · simp [h]
    · simp [h]

theorem hackernewsRow_eq (base : SourceBase) (now : Nat) (acc : List NewsItem)
    (row : Option ATag) :
    hackernewsRow base now acc row = appendOpt acc (hackernewsItemOfRow base now row) := by
  cases row with
  | none => rfl
  | some a =>
    simp only [hackernewsRow, hackernewsItemOfRow, appendOpt]
    by_cases h : (a.text == "") = true
    · simp [h]
    · simp [h]

theorem githubRow_eq (base : SourceBase) (now : Nat) (acc : List NewsItem)
    (row : Option ATag) :
    githubRow base now acc row = appendOpt acc (githubItemOfRow base now row) := by
  cases row with
  | none => rfl
  | some a =>
    simp only [githubRow, githubItemOfRow, appendOpt]
    by_cases h : ((a.text.replace "\n" "").trim == "") = true
    · simp [h]
    · simp [h]

theorem hupuFetchHtml_eq (env : Env) (base : SourceBase) (url html : Json)
    (rows : List (Option ATag)) (ht : env.transport url .null = .ok html)
    (hd : env.hupuDom html = .ok rows) :
    hupuFetchHtml env base url =
      (.ok (rows.filterMap (hupuItemOfRow base env.now)), 1) := by
  unfold hupuFetchHtml
  simp only [ht, hd]
  rw [foldl_eq_filterMap (hupuRow base env.now) (hupuItemOfRow base env.now)
    (hupuRow_eq base env.now) rows []]
  simp

theorem hackernewsFetchHtml_eq (env : Env) (base : SourceBase) (url html : Json)
    (rows : List (Option ATag)) (ht : env.transport url .null = .ok html)
    (hd : env.hackernewsDom html = .ok rows) :
    hackernewsFetchHtml env base url =
      (.ok (rows.filterMap (hackernewsItemOfRow base env.now)), 1) := by
  unfold hackernewsFetchHtml
  simp only [ht, hd]
  rw [foldl_eq_filterMap (hackernewsRow base env.now) (hackernewsItemOfRow base env.now)
    (hackernewsRow_eq base env.now) rows []]
  simp

theorem githubFetchHtml_eq (env : Env) (base : SourceBase) (url html : Json)
    (rows : List (Option ATag)) (ht : env.transport url .null = .ok html)
    (hd : env.githubDom html = .ok rows) :
    githubFetchHtml env base url =
      (.ok (rows.filterMap (githubItemOfRow base env.now)), 1) := by
  unfold githubFetchHtml
  simp only [ht, hd]
  rw [foldl_eq_filterMap (githubRow base env.now) (githubItemOfRow base env.now)
    (githubRow_eq base env.now) rows []]
  simp

/-! ## Helper lemmas: the sanitizer's normal form

The output of `strip_html` is whitespace-normal: every whitespace
character is a plain space, no two are adjacent, and none sits at either
end.  On such strings `strip_html`'s whitespace pipeline is the identity,
which is the heart of its idempotence on markup-free input. -/

/-- Every whitespace character in the list is the plain space. -/
def allSpace (l : List Char) : Prop := ∀ c ∈ l, c.isWhitespace = true → c = ' '

/-- The first character, when present, is not whitespace. -/
def headNotWs : List Char → Prop
  | [] => True
  | c :: _ => c.isWhitespace = false

/-- The last character, when present, is not whitespace. -/
def lastNotWs : List Char → Prop
  | [] => True
  | [c] => c.isWhitespace = false
  | _ :: c :: rest => lastNotWs (c :: rest)

/-- No two adjacent whitespace characters. -/
def noTwoWs : List Char → Prop
  | [] => True
  | c :: rest => (c.isWhitespace = true → headNotWs rest) ∧ noTwoWs rest

theorem collapse_true_headNotWs : ∀ l : List Char, headNotWs (collapseWsAux true l) := by
  intro l
  induction l with
  | nil => trivial
  | cons c rest ih =>
    by_cases h : c.isWhitespace = true
    · simp only [collapseWsAux, h, if_true]
      exact ih
    · have h' := Bool.of_not_eq_true h
      simp only [collapseWsAux, h', Bool.false_eq_true, if_false]
      exact h'

theorem collapse_allSpace : ∀ (l : List Char) (b : Bool), allSpace (collapseWsAux b l) := by
  intro l
  induction l with
  | nil => intro b c hc; simp [collapseWsAux] at hc
  | cons c rest ih =>
    intro b
    by_cases h : c.isWhitespace = true
    · cases b with
      | true =>
        intro x hx hw
        simp only [collapseWsAux, h, if_true] at hx
        exact ih true x hx hw
      | false =>
        intro x hx hw
        simp only [collapseWsAux, h, if_true, Bool.false_eq_true, if_false,
          List.mem_cons] at hx
        rcases hx with hx | hx
        · exact hx
        · exact ih true x hx hw
    · have h' := Bool.of_not_eq_true h
      intro x hx hw
      simp only [collapseWsAux, h', Bool.false_eq_true, if_false, List.mem_cons] at hx
      rcases hx with hx | hx
      · subst hx; rw [h'] at hw; exact absurd hw (by simp)
      · exact ih false x hx hw

theorem collapse_noTwoWs : ∀ (l : List Char) (b : Bool), noTwoWs (collapseWsAux b l) := by
  intro l
  induction l with
  | nil => intro b; trivial
  | cons c rest ih =>
    intro b
    by_cases h : c.isWhitespace = true
    · cases b with
      | true =>
        simp only [collapseWsAux, h, if_true]
        exact ih true
      | false =>
        simp only [collapseWsAux, h, if_true]
        exact ⟨fun _ => collapse_true_headNotWs rest, ih true⟩
    · have h' := Bool.of_not_eq_true h
      simp only [collapseWsAux, h', Bool.false_eq_true, if_false]
      refine ⟨fun hc => absurd hc (by rw [h']; simp), ih false⟩

theorem collapse_id : ∀ (l : List Char) (b : Bool), allSpace l → noTwoWs l →
    (b = true → headNotWs l) → collapseWsAux b l = l := by
  intro l
  induction l with
  | nil => intro b _ _ _; rfl
  | cons c rest ih =>
    intro b hall htwo hhead
    by_cases h : c.isWhitespace = true
    · cases b with
      | true =>
        have := hhead rfl
        rw [show headNotWs (c :: rest) = (c.isWhitespace = false) from rfl] at this
        rw [this] at h
        exact absurd h (by simp)
      | false =>
        have hc : c = ' ' := hall c (List.mem_cons_self c rest) h
        simp only [collapseWsAux, h, if_true, Bool.false_eq_true, if_false]
        rw [ih true (fun x hx => hall x (List.mem_cons_of_mem c hx)) htwo.2
          (fun _ => htwo.1 h)]
        rw [hc]
    · have h' := Bool.of_not_eq_true h
      simp only [collapseWsAux, h', Bool.false_eq_true, if_false]
      rw [ih false (fun x hx => hall x (List.mem_cons_of_mem c hx)) htwo.2 (by simp)]

theorem collapse_mem : ∀ (l : List Char) (b : Bool) (x : Char),
    x ∈ collapseWsAux b l → x = ' ' ∨ x ∈ l := by
  intro l
  induction l with
  | nil => intro b x hx; simp [collapseWsAux] at hx
  | cons c rest ih =>
    intro b
    by_cases h : c.isWhitespace = true
    · cases b with
      | true =>
        intro x hx
        simp only [collapseWsAux, h, if_true] at hx
        rcases ih true x hx with h1 | h1
        · exact Or.inl h1
        · exact Or.inr (List.mem_cons_of_mem c h1)
      | false =>
        intro x hx
        simp only [collapseWsAux, h, if_true, Bool.false_eq_true, if_false,
          List.mem_cons] at hx
        rcases hx with hx | hx
        · exact Or.inl hx
        · rcases ih true x hx with h1 | h1
          · exact Or.inl h1
          · exact Or.inr (List.mem_cons_of_mem c h1)
    · have h' := Bool.of_not_eq_true h
      intro x hx
      simp only [collapseWsAux, h', Bool.false_eq_true, if_false, List.mem_cons] at hx
      rcases hx with hx | hx
      · exact Or.inr (hx ▸ List.mem_cons_self c rest)
      · rcases ih false x hx with h1 | h1
        · exact Or.inl h1
        · exact Or.inr (List.mem_cons_of_mem c h1)

theorem dropWhileWs_headNotWs : ∀ l : List Char,
    headNotWs (l.dropWhile Char.isWhitespace) := by
  intro l
  induction l with
  | nil => trivial
  | cons c rest ih =>
    by_cases h : c.isWhitespace = true
    · simp only [List.dropWhile_cons, h, if_true]
      exact ih
    · have h' := Bool.of_not_eq_true h
      simp only [List.dropWhile_cons, h', Bool.false_eq_true, if_false]
      exact h'

theorem dropWhileWs_noTwoWs : ∀ l : List Char, noTwoWs l →
    noTwoWs (l.dropWhile Char.isWhitespace) := by
  intro l
  induction l with
  | nil => intro h; trivial
  | cons c rest ih =>
    intro h
    by_cases hc : c.isWhitespace = true
    · simp only [List.dropWhile_cons, hc, if_true]
      exact ih h.2
    · have hc' := Bool.of_not_eq_true hc
      simp only [List.dropWhile_cons, hc', Bool.false_eq_true, if_false]
      exact h

theorem dropWhileWs_mem : ∀ (l : List Char) (x : Char),
    x ∈ l.dropWhile Char.isWhitespace → x ∈ l := by
  intro l
  induction l with
  | nil => intro x hx; simp at hx
  | cons c rest ih =>
    intro x hx
    by_cases hc : c.isWhitespace = true
    · simp only [List.dropWhile_cons, hc, if_true] at hx
      exact List.mem_cons_of_mem c (ih x hx)
    · have hc' := Bool.of_not_eq_true hc
      simp only [List.dropWhile_cons, hc', Bool.false_eq_true, if_false] at hx
      exact hx

theorem dropWhileWs_id : ∀ l : List Char, headNotWs l →
    l.dropWhile Char.isWhitespace = l := by
  intro l h
  cases l with
  | nil => rfl
  | cons c rest =>
    have hc : c.isWhitespace = false := h
    simp only [List.dropWhile_cons, hc, Bool.false_eq_true, if_false]

theorem trimRight_cons (c : Char) (rest : List Char) :
    trimRight (c :: rest) =
      (match trimRight rest with
       | [] => if c.isWhitespace then [] else [c]
       | r => c :: r) := rfl

theorem trimRight_mem : ∀ (l : List Char) (x : Char), x ∈ trimRight l → x ∈ l := by
  intro l
  induction l with
  | nil => intro x hx; simp [trimRight] at hx
  | cons c rest ih =>
    intro x hx
    simp only [trimRight] at hx
    cases htr : trimRight rest with
    | nil =>
      rw [htr] at hx
      by_cases hc : c.isWhitespace = true
      · simp [hc] at hx
      · have hc' := Bool.of_not_eq_true hc
        simp [hc'] at hx
        exact hx ▸ List.mem_cons_self c rest
    | cons y ys =>
      rw [htr] at hx
      rcases List.mem_cons.mp hx with h1 | h1
      · exact h1 ▸ List.mem_cons_self c rest
      · exact List.mem_cons_of_mem c (ih x (htr ▸ h1))

theorem trimRight_headNotWs : ∀ l : List Char, headNotWs l → headNotWs (trimRight l) := by
  intro l h
  cases l with
  | nil => trivial
  | cons c rest =>
    have hc : c.isWhitespace = false := h
    simp only [trimRight]
    cases htr : trimRight rest with
    | nil => rw [hc]; simp; exact hc
    | cons y ys => exact hc

theorem trimRight_lastNotWs : ∀ l : List Char, lastNotWs (trimRight l) := by
  intro l
  induction l with
  | nil => trivial
  | cons c rest ih =>
    simp only [trimRight]
    cases htr : trimRight rest with
    | nil =>
      by_cases hc : c.isWhitespace = true
      · simp [hc]; trivial
      · have hc' := Bool.of_not_eq_true hc
        simp [hc']
        exact hc'
    | cons y ys =>
      rw [htr] at ih
      exact ih

theorem trimRight_noTwoWs : ∀ l : List Char, noTwoWs l → noTwoWs (trimRight l) := by
  intro l
  induction l with
  | nil => intro h; trivial
  | cons c rest ih =>
    intro h
    simp only [trimRight]
    cases htr : trimRight rest with
    | nil =>
      by_cases hc : c.isWhitespace = true
      · simp [hc]; trivial
      · have hc' := Bool.of_not_eq_true hc
        simp [hc']
        exact ⟨fun hfalse => absurd hfalse (by rw [hc']; simp), trivial⟩
    | cons y ys =>
      refine ⟨fun hcw => ?_, htr ▸ ih h.2⟩
      cases rest with
      | nil => simp [trimRight] at htr
      | cons d ds =>
        have hd : headNotWs (d :: ds) := h.1 hcw
        have := trimRight_headNotWs (d :: ds) hd
        rw [htr] at this
        exact this

theorem trimRight_id : ∀ l : List Char, lastNotWs l → trimRight l = l := by
  intro l
  induction l with
  | nil => intro _; rfl
  | cons c rest ih =>
    intro h
    cases rest with
    | nil =>
      have hc : c.isWhitespace = false := h
      simp [trimRight, hc]
    | cons d ds =>
      have hd : lastNotWs (d :: ds) := h
      have htr : trimRight (d :: ds) = d :: ds := ih hd
      rw [trimRight_cons, htr]

theorem trimRight_allSpace (l : List Char) (h : allSpace l) : allSpace (trimRight l) :=
  fun c hc hw => h c (trimRight_mem l c hc) hw

theorem dropWhileWs_allSpace (l : List Char) (h : allSpace l) :
    allSpace (l.dropWhile Char.isWhitespace) :=
  fun c hc hw => h c (dropWhileWs_mem l c hc) hw

theorem pyStrip_mem (l : List Char) (x : Char) (hx : x ∈ pyStrip l) : x ∈ l :=
  dropWhileWs_mem l x (trimRight_mem _ x hx)

theorem pyStrip_id (l : List Char) (h1 : headNotWs l) (h2 : lastNotWs l) :
    pyStrip l = l := by
  unfold pyStrip
  rw [dropWhileWs_id l h1, trimRight_id l h2]

/-- The four normal-form properties of the sanitizer's whitespace pipeline
`pyStrip (collapseWsAux false ·)`. -/
theorem sanitized_props (l : List Char) :
    allSpace (pyStrip (collapseWsAux false l)) ∧
    noTwoWs (pyStrip (collapseWsAux false l)) ∧
    headNotWs (pyStrip (collapseWsAux false l)) ∧
    lastNotWs (pyStrip (collapseWsAux false l)) := by
  unfold pyStrip
  refine ⟨trimRight_allSpace _ (dropWhileWs_allSpace _ (collapse_allSpace l false)),
    trimRight_noTwoWs _ (dropWhileWs_noTwoWs _ (collapse_noTwoWs l false)),
    trimRight_headNotWs _ (dropWhileWs_headNotWs _),
    trimRight_lastNotWs _⟩

/-- On a whitespace-normal list the pipeline is the identity. -/
theorem sanitize_fix (r : List Char) (h1 : allSpace r) (h2 : noTwoWs r)
    (h3 : headNotWs r) (h4 : lastNotWs r) :
    pyStrip (collapseWsAux false (pyStrip r)) = r := by
  rw [pyStrip_id r h3 h4, collapse_id r false h1 h2 (by simp), pyStrip_id r h3 h4]

/-! ## Helper lemmas: the sanitizer on markup-free input -/

/-- Without `<` the whole fragment is one text node. -/
theorem textSegs_noLt : ∀ l : List Char, '<' ∉ l → textSegs false l = [l] := by
  intro l
  induction l with
  | nil => intro _; rfl
  | cons c rest ih =>
    intro h
    have hc : ¬c = '<' := fun he => h (he ▸ List.mem_cons_self c rest)
    have hrest : '<' ∉ rest := fun hm => h (List.mem_cons_of_mem c hm)
    simp only [textSegs, hc, if_false, ih hrest]

set_option maxHeartbeats 3000000 in
/-- The non-entity step of the decoder. -/
theorem decode_cons_ne (c : Char) (rest : List Char) (hc : ¬c = '&') :
    decodeEntities (c :: rest) = c :: decodeEntities rest := by
  unfold decodeEntities
  rw [if_neg hc]
  exact congrArg _ (decodeEntities.eq_def rest)

/-- Without `&` entity decoding is the identity. -/
theorem decode_noAmp : ∀ l : List Char, '&' ∉ l → decodeEntities l = l := by
  intro l
  induction l with
  | nil => intro _; rfl
  | cons c rest ih =>
    intro h
    have hc : ¬c = '&' := fun he => h (he ▸ List.mem_cons_self c rest)
    have hrest : '&' ∉ rest := fun hm => h (List.mem_cons_of_mem c hm)
    rw [decode_cons_ne c rest hc, ih hrest]

/-- On markup-free input, extraction and joining collapse to `pyStrip`. -/
theorem joinGetText (l : List Char) (h1 : '<' ∉ l) (h2 : '&' ∉ l) :
    joinSpace (getText l) = pyStrip l := by
  unfold getText
  rw [textSegs_noLt l h1]
  simp only [List.map_cons, List.map_nil, decode_noAmp l h2]
  by_cases he : (pyStrip l).isEmpty = true
  · rw [List.isEmpty_iff] at he
    simp [he, joinSpace]
  · simp only [List.filter_cons, he, Bool.not_false, List.filter_nil, if_pos]
    rfl

/-- `strip_html` on markup-free input is the whitespace pipeline alone. -/
theorem strip_html_noMarkup (x : String) (h1 : '<' ∉ x.data) (h2 : '&' ∉ x.data) :
    strip_html x = String.mk (pyStrip (collapseWsAux false (pyStrip x.data))) := by
  unfold strip_html
  by_cases hx : x = ""
  · subst hx
    simp [pyStrip, trimRight, collapseWsAux]
    try rfl
  · rw [if_neg hx, joinGetText x.data h1 h2]

/-- The sanitizer's output only contains characters of the input, or the
space it inserts. -/
theorem sanitize_chars (l : List Char) (x : Char)
    (hx : x ∈ pyStrip (collapseWsAux false (pyStrip l))) : x = ' ' ∨ x ∈ l := by
  have h1 := pyStrip_mem _ x hx
  rcases collapse_mem _ false x h1 with h | h
  · exact Or.inl h
  · exact Or.inr (pyStrip_mem l x h)

/-- Idempotence of `strip_html` on markup-free strings, the core of the
amended sanitizer claim. -/
theorem strip_html_idem_noMarkup (x : String) (h1 : '<' ∉ x.data) (h2 : '&' ∉ x.data) :
    strip_html (strip_html x) = strip_html x := by
  rw [strip_html_noMarkup x h1 h2]
  have hdata : (String.mk (pyStrip (collapseWsAux false (pyStrip x.data)))).data =
      pyStrip (collapseWsAux false (pyStrip x.data)) := rfl
  have hlt : '<' ∉ (String.mk (pyStrip (collapseWsAux false (pyStrip x.data)))).data := by
    rw [hdata]
    intro hm
    rcases sanitize_chars x.data '<' hm with h | h
    · exact absurd h (by decide)
    · exact h1 h
  have hamp : '&' ∉ (String.mk (pyStrip (collapseWsAux false (pyStrip x.data)))).data := by
    rw [hdata]
    intro hm
    rcases sanitize_chars x.data '&' hm with h | h
    · exact absurd h (by decide)
    · exact h2 h
  rw [strip_html_noMarkup _ hlt hamp, hdata]
  obtain ⟨p1, p2, p3, p4⟩ := sanitized_props (pyStrip x.data)
  rw [sanitize_fix _ p1 p2 p3 p4]

/-- An item list built as the well-formed records' images satisfies any
property the builder guarantees on well-formed records. -/
theorem items_prop {wf : Json → Bool} {item : Json → NewsItem} (records : List Json)
    (P : NewsItem → Prop) (h : ∀ r, wf r = true → P (item r)) :
    ∀ it ∈ (records.filter wf).map item, P it := by
  intro it hit
  rcases List.mem_map.mp hit with ⟨r, hr, rfl⟩
  exact h r (List.of_mem_filter hr)

/-! ## Claim theorems -/

/-- C5: for every Source whose `enabled` flag is falsy, `fetch()` returns
the empty list (Python `[]`, not `None`) and performs zero transport
calls, whatever the environment does. -/
theorem C5_disabled_fetch_empty_no_calls (s : Source) (env : Env)
    (h : truthy s.base.enabled = false) :
    s.fetch env = (.ok (some []), 0) := by
  unfold Source.fetch
  simp [h]

/-- Witness for C5 at a concrete disabled Zhihu source. -/
theorem C5_witness :
    Source.fetch
      ⟨{ platform := "zhihu", name := .str "n", icon := .str "i", srcType := .str "api",
         category := .str "c", enabled := .bool false }, .zhihu (.str "u")⟩
      (fixedEnv (.obj []) []) = (.ok (some []), 0) :=
  C5_disabled_fetch_empty_no_calls _ _ (by decide)

/-- C10: an enabled Source whose `type` is neither `"api"` nor `"html"`
falls through both dispatch branches of `NewsSource.fetch` and returns the
empty list with zero transport calls, rather than raising. -/
theorem C10_unknown_type_fetch_empty (s : Source) (env : Env)
    (henabled : truthy s.base.enabled = true)
    (hapi : s.base.srcType.isStr "api" = false)
    (hhtml : s.base.srcType.isStr "html" = false) :
    s.fetch env = (.ok (some []), 0) := by
  unfold Source.fetch
  simp [henabled, hapi, hhtml]

/-- Witness for C10 at a concrete source of type `"rss"`. -/
theorem C10_witness :
    Source.fetch
      ⟨{ platform := "zhihu", name := .str "n", icon := .str "i", srcType := .str "rss",
         category := .str "c", enabled := .bool true }, .zhihu (.str "u")⟩
      (fixedEnv (.obj []) []) = (.ok (some []), 0) :=
  C10_unknown_type_fetch_empty _ _ (by decide) (by decide) (by decide)

/-- C7: if the underlying HTTP call fails on attempts 1 and 2 but succeeds
on attempt 3, the retried `fetch` returns the third attempt's parsed
result, not a failure. -/
theorem C7_retry_returns_third_attempt (attempts : Nat → Except PyErr Json)
    (e1 e2 : PyErr) (v : Json) (h1 : attempts 1 = .error e1)
    (h2 : attempts 2 = .error e2) (h3 : attempts 3 = .ok v) :
    fetchWithRetry attempts = .ok v := by
  unfold fetchWithRetry fetchOnce
  rw [h1, h2, h3]

/-- Witness for C7 with a transport that only succeeds on the third
attempt. -/
theorem C7_witness :
    fetchWithRetry (fun n => if n = 3 then .ok (.str "payload") else .error .typeError) =
      .ok (.str "payload") :=
  C7_retry_returns_third_attempt _ .typeError .typeError _ rfl rfl rfl

/-- C8 counterexample: `strip_html` is not idempotent on every string —
entity decoding can manufacture markup that a second pass then strips
(`"&lt;b&gt;hi&lt;/b&gt;"` sanitises to `"<b>hi</b>"`, which sanitises to
`"hi"`). -/
theorem C8_counterexample :
    strip_html (strip_html "&lt;b&gt;hi&lt;/b&gt;") ≠
      strip_html "&lt;b&gt;hi&lt;/b&gt;" := by
  decide

/-- C8 (amended): the sanitizer is idempotent on every input containing no
`<` and no `&` — markup-free input, where only the whitespace pipeline
acts. -/
theorem C8_sanitizer_idempotent_markup_free (x : String)
    (h1 : '<' ∉ x.data) (h2 : '&' ∉ x.data) :
    strip_html (strip_html x) = strip_html x :=
  strip_html_idem_noMarkup x h1 h2

/-- Witness for C8 at a concrete whitespace-heavy string. -/
theorem C8_witness :
    strip_html (strip_html "  hello   world ") = strip_html "  hello   world " :=
  C8_sanitizer_idempotent_markup_free "  hello   world " (by decide) (by decide)

/-- C1 counterexample: a configuration whose `zhihu` platform entry is not
a dict makes `fetch_all_news` raise `AttributeError` at the
`platform_config.get("enabled", True)` read (line 399), which sits outside
the `try` block — the overall aggregation call fails instead of returning
a flat list. -/
theorem C1_counterexample :
    fetchAllNews (fixedEnv (.obj []) [])
      (.obj [("platforms", .obj [("zhihu", .num 5)])]) =
      .error .attributeError := rfl

/-- C1 (amended): once every platform entry is a dict (the shape the config
loader produces), `fetch_all_news` is total for every per-source behaviour:
construction or fetch errors of one source are caught, every remaining
enabled source still runs, and the flat concatenation of the per-source
contributions is returned (`sourceItems` is `[]` exactly when the source
was disabled, unregistered, or its construction/fetch raised). -/
theorem C1_aggregator_isolates_source_failures (env : Env) (config : Json)
    (ps : List (String × Json))
    (hp : pySubscript config "platforms" = .ok (.obj ps))
    (hobj : ∀ kv ∈ ps, kv.2.isObj = true) :
    fetchAllNews env config = .ok (ps.flatMap (sourceItems env)) :=
  fetchAllNews_eq env config ps hp hobj

/-- A Zhihu API fixture used by concrete instances. -/
def zhihuFixture : Json :=
  .obj [("data", .arr [
    .obj [("target", .obj [
      ("title_area", .obj [("text", .str "Example")]),
      ("url", .str "http://x"),
      ("excerpt_area", .obj [("text", .str "Body")])])]])]

/-- An environment where only the url `"zu"` resolves; everything else
fails at transport level. -/
def c1Env : Env :=
  { transport := fun u _ => if u.isStr "zu" then .ok zhihuFixture else .error .typeError,
    now := 7, hupuDom := fun _ => .ok [], hackernewsDom := fun _ => .ok [],
    githubDom := fun _ => .ok [], producthuntDom := fun _ => .ok [] }

/-- A two-platform configuration whose second source will fail at
transport level. -/
def c1Config : Json :=
  .obj [("platforms", .obj [
    ("zhihu", .obj [("name", .str "n"), ("icon", .str "i"), ("type", .str "api"),
      ("category", .str "c"), ("url", .str "zu")]),
    ("thepaper", .obj [("name", .str "n"), ("icon", .str "i"), ("type", .str "api"),
      ("category", .str "c"), ("url", .str "tu")])])]

/-- Witness for C1: with one healthy and one failing source the aggregation
still returns the flat contribution list. -/
theorem C1_witness :
    fetchAllNews c1Env c1Config =
      .ok (([("zhihu", .obj [("name", .str "n"), ("icon", .str "i"), ("type", .str "api"),
          ("category", .str "c"), ("url", .str "zu")]),
        ("thepaper", .obj [("name", .str "n"), ("icon", .str "i"), ("type", .str "api"),
          ("category", .str "c"), ("url", .str "tu")])] :
          List (String × Json)).flatMap (sourceItems c1Env)) :=
  C1_aggregator_isolates_source_failures c1Env c1Config _ rfl (by decide)

/-- C3 counterexample: a Zhihu response with exactly one malformed record
(the number `5`, on which `.get` is not defined) makes the whole fetch
raise `AttributeError`; the well-formed record extracted before it is
lost. -/
theorem C3_counterexample :
    (zhihuFetchApi
      (fixedEnv (.obj [("data", .arr
        [.obj [("target", .obj [("title_area", .obj [("text", .str "Good")])])],
         .num 5])]) [])
      (apiBase "zhihu") (.str "u")).1 = .error .attributeError := rfl

/-- C3 (amended): a malformed record of benign shape — a dict whose
expected fields are merely missing or falsy — is skipped and the Items of
all other records of the same response are still returned (shown for the
cited Zhihu and ThePaper extractors); but a record whose shape breaks
attribute access (a non-dict, or a non-dict where a dict is expected)
raises and aborts the whole fetch, which only the aggregator then
catches. -/
theorem C3_benign_malformed_record_skipped :
    (∀ (env : Env) (base : SourceBase) (url : Json) (rs1 rs2 : List Json) (m : Json),
      env.transport url .null = .ok (.obj [("data", .arr (rs1 ++ m :: rs2))]) →
      (∀ r ∈ rs1 ++ m :: rs2, zhihuBenign r = true) →
      zhihuWf m = false →
      zhihuFetchApi env base url =
        (.ok (((rs1 ++ rs2).filter zhihuWf).map (zhihuItem base env.now)), 1)) ∧
    (∀ (env : Env) (base : SourceBase) (url : Json) (rs1 rs2 : List Json) (m : Json),
      env.transport url .null =
        .ok (.obj [("data", .obj [("hotNews", .arr (rs1 ++ m :: rs2))])]) →
      (∀ r ∈ rs1 ++ m :: rs2, thepaperBenign r = true) →
      thepaperWf m = false →
      thepaperFetchApi env base url =
        (.ok (((rs1 ++ rs2).filter thepaperWf).map (thepaperItem base env.now)), 1)) := by
  constructor
  · intro env base url rs1 rs2 m ht hb hwf
    rw [zhihuFetchApi_ok env base url _ ht]
    rw [zhihuParse_eq base env.now [("data", .arr (rs1 ++ m :: rs2))]
      (rs1 ++ m :: rs2) rfl hb]
    have hf : (rs1 ++ m :: rs2).filter zhihuWf = (rs1 ++ rs2).filter zhihuWf := by
      simp [List.filter_append, List.filter_cons, hwf]
    rw [hf]
  · intro env base url rs1 rs2 m ht hb hwf
    rw [thepaperFetchApi_ok env base url _ ht]
    rw [thepaperParse_eq base env.now
      [("data", .obj [("hotNews", .arr (rs1 ++ m :: rs2))])]
      [("hotNews", .arr (rs1 ++ m :: rs2))] (rs1 ++ m :: rs2) rfl rfl hb]
    have hf : (rs1 ++ m :: rs2).filter thepaperWf = (rs1 ++ rs2).filter thepaperWf := by
      simp [List.filter_append, List.filter_cons, hwf]
    rw [hf]

/-- Witness for C3: a Zhihu response with a benign malformed record (its
title area is empty) between two well-formed records. -/
theorem C3_witness :
    zhihuFetchApi
      (fixedEnv (.obj [("data", .arr
        ([Json.obj [("target", .obj [("title_area", .obj [("text", .str "One")])])]] ++
          Json.obj [("target", .obj [])] ::
          [Json.obj [("target", .obj [("title_area", .obj [("text", .str "Two")])])]]))]) [])
      (apiBase "zhihu") (.str "u") =
      (.ok ((([Json.obj [("target", .obj [("title_area", .obj [("text", .str "One")])])]] ++
          [Json.obj [("target", .obj [("title_area", .obj [("text", .str "Two")])])]]).filter
            zhihuWf).map
        (zhihuItem (apiBase "zhihu") 7)), 1) :=
  C3_benign_malformed_record_skipped.1
    (fixedEnv (.obj [("data", .arr
      ([Json.obj [("target", .obj [("title_area", .obj [("text", .str "One")])])]] ++
        Json.obj [("target", .obj [])] ::
        [Json.obj [("target", .obj [("title_area", .obj [("text", .str "Two")])])]]))]) [])
    (apiBase "zhihu") (.str "u") _ _ _ rfl (by decide) (by decide)

/-- C9: the Sspai extractor fills every Item's `url` from the record's
`id` field — an internal identifier, not a link — defaulting to the empty
string when the field is absent; the fetch result is exactly the
well-formed records' images under this builder. -/
theorem C9_sspai_url_copied_from_id :
    (∀ (env : Env) (base : SourceBase) (url : Json) (pfs dfs : List (String × Json))
      (records : List Json),
      env.transport url (.obj (setField pfs "created_at" (.num env.now))) = .ok (.obj dfs) →
      dfs.lookup "data" = some (.arr records) →
      (∀ r ∈ records, sspaiBenign r = true) →
      sspaiFetchApi env base url (.obj pfs) =
        (.ok ((records.filter sspaiWf).map (sspaiItem base env.now)), 1)) ∧
    (∀ (base : SourceBase) (now : Nat) (r : Json),
      (sspaiItem base now r).url = r.getD "id" (.str "")) ∧
    (∀ (base : SourceBase) (now : Nat) (r : Json), lookupField r "id" = none →
      (sspaiItem base now r).url = .str "") := by
  refine ⟨?_, ?_, ?_⟩
  · intro env base url pfs dfs records ht hd hb
    rw [sspaiFetchApi_ok env base url pfs _ ht]
    rw [sspaiParse_eq base env.now dfs records hd hb]
  · intro base now r
    rfl
  · intro base now r h
    show r.getD "id" (.str "") = .str ""
    cases r with
    | obj fs =>
      have : fs.lookup "id" = none := h
      simp [Json.getD, this]
    | null => rfl
    | bool b => rfl
    | num n => rfl
    | str s => rfl
    | arr xs => rfl

/-- Witness for C9: a record with a numeric `id` yields an Item whose url
is that number. -/
theorem C9_witness :
    sspaiFetchApi
      (fixedEnv (.obj [("data", .arr [.obj [("title", .str "A"), ("id", .num 99)]])]) [])
      (apiBase "sspai") (.str "u") (.obj []) =
      (.ok (([Json.obj [("title", .str "A"), ("id", .num 99)]].filter sspaiWf).map
        (sspaiItem (apiBase "sspai") 7)), 1) :=
  C9_sspai_url_copied_from_id.1
    (fixedEnv (.obj [("data", .arr [.obj [("title", .str "A"), ("id", .num 99)]])]) [])
    (apiBase "sspai") (.str "u") [] _ _ rfl rfl (by decide)

/-- C4: for the multi-endpoint WallStreetCN source, the endpoint loop is
total whenever every endpoint config carries a `url`: the fetch returns
the concatenation of the per-endpoint contributions with one transport
call per endpoint, and an endpoint whose transport call raises contributes
`[]` — the remaining endpoints' parsed Items are still returned. -/
theorem C4_wscn_endpoint_isolation (env : Env) (base : SourceBase)
    (eps : List (String × Json))
    (h : ∀ kv ∈ eps, ∃ u, pySubscript kv.2 "url" = .ok u) :
    wscnFetchApi env base (.obj eps) =
      (.ok (eps.flatMap (wscnEndpointItems env base)), eps.length) ∧
    (∀ (kv : String × Json) (u params : Json) (e : PyErr),
      pySubscript kv.2 "url" = .ok u →
      pyGet kv.2 "params" (.obj []) = .ok params →
      env.transport u params = .error e →
      wscnEndpointItems env base kv = []) := by
  constructor
  · exact wscnFetchApi_eq env base eps h
  · intro kv u params e hu hp htr
    unfold wscnEndpointItems
    simp only [hu, hp, htr]

/-- An environment for the WallStreetCN witness: the `live` endpoint's url
fails at transport level, the `news` endpoint succeeds. -/
def c4Env : Env :=
  { transport := fun u _ =>
      if u.isStr "newsurl" then
        .ok (.obj [("data", .obj [("items", .arr
          [.obj [("article", .obj [("title", .str "T"), ("uri", .str "U")])]])])])
      else .error .typeError,
    now := 7, hupuDom := fun _ => .ok [], hackernewsDom := fun _ => .ok [],
    githubDom := fun _ => .ok [], producthuntDom := fun _ => .ok [] }

/-- The endpoint table for the WallStreetCN witness. -/
def c4Eps : List (String × Json) :=
  [("live", .obj [("url", .str "liveurl")]), ("news", .obj [("url", .str "newsurl")])]

/-- Witness for C4: with the `live` endpoint failing, the fetch still
succeeds with both endpoints' contributions and two transport calls, and
the failing endpoint's contribution is empty. -/
theorem C4_witness :
    wscnFetchApi c4Env (apiBase "wallstreetcn") (.obj c4Eps) =
      (.ok (c4Eps.flatMap (wscnEndpointItems c4Env (apiBase "wallstreetcn"))), 2) ∧
    wscnEndpointItems c4Env (apiBase "wallstreetcn")
      ("live", .obj [("url", .str "liveurl")]) = [] := by
  have h : ∀ kv ∈ c4Eps, ∃ u, pySubscript kv.2 "url" = .ok u := by
    intro kv hkv
    rcases List.mem_cons.mp hkv with hkv | hkv
    · exact ⟨.str "liveurl", by subst hkv; rfl⟩
    · rcases List.mem_cons.mp hkv with hkv | hkv
      · exact ⟨.str "newsurl", by subst hkv; rfl⟩
      · exact absurd hkv (by simp)
  refine ⟨(C4_wscn_endpoint_isolation c4Env (apiBase "wallstreetcn") c4Eps h).1, ?_⟩
  exact (C4_wscn_endpoint_isolation c4Env (apiBase "wallstreetcn") c4Eps h).2
    ("live", .obj [("url", .str "liveurl")]) (.str "liveurl") (.obj [])
    .typeError rfl rfl rfl

/-- C6 counterexample: the HackerNews HTML source does not rewrite
relative hrefs — a node with href `"item?id=1"` (relative: it does not
start with `"http"`) yields an Item whose url is `"item?id=1"` unchanged,
which does not start with the site's origin (or any `http` url). -/
theorem C6_counterexample :
    (hackernewsFetchHtml (fixedEnv (.str "page") [some ⟨"A", "item?id=1"⟩])
      (htmlBase "hackernews") (.str "u")).1 =
      .ok [{ title := .str "A", url := .str "item?id=1", platform := "hackernews",
             platform_icon := .str "i", raw_category := .str "c", content := .str "",
             timestamp := some 7 }] ∧
    pyStartswith "item?id=1" "http" = false ∧
    pyStartswith "item?id=1" "https://news.ycombinator.com" = false :=
  ⟨rfl, by decide, by decide⟩

/-- C6 (amended): the Hupu and GitHub HTML sources rewrite every non-empty
href not starting with `"http"` by prefixing their origin, and pass hrefs
starting with `"http"` through unchanged; the HackerNews HTML source
passes every href through unchanged.  Each source's fetch is exactly the
`filterMap` of its row-to-item function, and every produced Item's url is
the (rewritten) href of one of its rows. -/
theorem C6_href_rewrite :
    (∀ h : String, pyStartswith h "http" = false → h ≠ "" →
      hupuUrl h = "https://bbs.hupu.com" ++ h) ∧
    (∀ h : String, pyStartswith h "http" = true → hupuUrl h = h) ∧
    (∀ h : String, pyStartswith h "http" = false → h ≠ "" →
      githubUrl h = "https://github.com" ++ h) ∧
    (∀ h : String, pyStartswith h "http" = true → githubUrl h = h) ∧
    (∀ (env : Env) (base : SourceBase) (url html : Json) (rows : List (Option ATag)),
      env.transport url .null = .ok html → env.hupuDom html = .ok rows →
      hupuFetchHtml env base url =
        (.ok (rows.filterMap (hupuItemOfRow base env.now)), 1)) ∧
    (∀ (base : SourceBase) (now : Nat) (rows : List (Option ATag)) (it : NewsItem),
      it ∈ rows.filterMap (hupuItemOfRow base now) →
      ∃ a : ATag, some a ∈ rows ∧ it.url = .str (hupuUrl a.href)) ∧
    (∀ (env : Env) (base : SourceBase) (url html : Json) (rows : List (Option ATag)),
      env.transport url .null = .ok html → env.githubDom html = .ok rows →
      githubFetchHtml env base url =
        (.ok (rows.filterMap (githubItemOfRow base env.now)), 1)) ∧
    (∀ (base : SourceBase) (now : Nat) (rows : List (Option ATag)) (it : NewsItem),
      it ∈ rows.filterMap (githubItemOfRow base now) →
      ∃ a : ATag, some a ∈ rows ∧ it.url = .str (githubUrl a.href)) ∧
    (∀ (env : Env) (base : SourceBase) (url html : Json) (rows : List (Option ATag)),
      env.transport url .null = .ok html → env.hackernewsDom html = .ok rows →
      hackernewsFetchHtml env base url =
        (.ok (rows.filterMap (hackernewsItemOfRow base env.now)), 1)) ∧
    (∀ (base : SourceBase) (now : Nat) (rows : List (Option ATag)) (it : NewsItem),
      it ∈ rows.filterMap (hackernewsItemOfRow base now) →
      ∃ a : ATag, some a ∈ rows ∧ it.url = .str a.href) := by
  refine ⟨?_, ?_, ?_, ?_, ?_, ?_, ?_, ?_, ?_, ?_⟩
  · intro h hs hne
    simp [hupuUrl, hs, hne]
  · intro h hs
    simp [hupuUrl, hs]
  · intro h hs hne
    simp [githubUrl, hs, hne]
  · intro h hs
    simp [githubUrl, hs]
  · intro env base url html rows ht hd
    exact hupuFetchHtml_eq env base url html rows ht hd
  · intro base now rows it hit
    rcases List.mem_filterMap.mp hit with ⟨row, hrow, hsome⟩
    cases row with
    | none => simp [hupuItemOfRow] at hsome
    | some a =>
      by_cases htext : (a.text == "") = true
      · simp [hupuItemOfRow, htext] at hsome
      · refine ⟨a, hrow, ?_⟩
        have htext2 := Bool.of_not_eq_true htext
        simp only [hupuItemOfRow, htext2, Bool.false_eq_true, if_false,
          Option.some.injEq] at hsome
        rw [← hsome]
  · intro env base url html rows ht hd
    exact githubFetchHtml_eq env base url html rows ht hd
  · intro base now rows it hit
    rcases List.mem_filterMap.mp hit with ⟨row, hrow, hsome⟩
    cases row with
    | none => simp [githubItemOfRow] at hsome
    | some a =>
      by_cases htext : ((a.text.replace "\n" "").trim == "") = true
      · simp [githubItemOfRow, htext] at hsome
      · refine ⟨a, hrow, ?_⟩
        have htext2 := Bool.of_not_eq_true htext
        simp only [githubItemOfRow, htext2, Bool.false_eq_true, if_false,
          Option.some.injEq] at hsome
        rw [← hsome]
  · intro env base url html rows ht hd
    exact hackernewsFetchHtml_eq env base url html rows ht hd
  · intro base now rows it hit
    rcases List.mem_filterMap.mp hit with ⟨row, hrow, hsome⟩
    cases row with
    | none => simp [hackernewsItemOfRow] at hsome
    | some a =>
      by_cases htext : (a.text == "") = true
      · simp [hackernewsItemOfRow, htext] at hsome
      · refine ⟨a, hrow, ?_⟩
        have htext2 := Bool.of_not_eq_true htext
        simp only [hackernewsItemOfRow, htext2, Bool.false_eq_true, if_false,
          Option.some.injEq] at hsome
        rw [← hsome]

/-- Witness for C6 at concrete hrefs and a concrete Hupu page. -/
theorem C6_witness :
    hupuUrl "/post/1" = "https://bbs.hupu.com" ++ "/post/1" ∧
    hupuUrl "https://x" = "https://x" ∧
    githubUrl "/r/repo" = "https://github.com" ++ "/r/repo" ∧
    githubUrl "http://y" = "http://y" ∧
    hupuFetchHtml (fixedEnv (.str "page") [some ⟨"T", "/post/1"⟩]) (htmlBase "hupu")
      (.str "u") =
      (.ok ([some (ATag.mk "T" "/post/1")].filterMap
        (hupuItemOfRow (htmlBase "hupu") 7)), 1) :=
  ⟨C6_href_rewrite.1 "/post/1" (by decide) (by decide),
   C6_href_rewrite.2.1 "https://x" (by decide),
   C6_href_rewrite.2.2.1 "/r/repo" (by decide) (by decide),
   C6_href_rewrite.2.2.2.1 "http://y" (by decide),
   C6_href_rewrite.2.2.2.2.1 (fixedEnv (.str "page") [some ⟨"T", "/post/1"⟩])
     (htmlBase "hupu") (.str "u") (.str "page") [some ⟨"T", "/post/1"⟩] rfl rfl⟩

/-! ## Per-item guarantees for well-formed records -/

theorem zhihuItem_wf_title (base : SourceBase) (now : Nat) (r : Json)
    (h : zhihuWf r = true) :
    truthy (zhihuItem base now r).title = true ∧
    (zhihuItem base now r).timestamp = some now := by
  unfold zhihuWf at h
  simp only [Bool.and_eq_true] at h
  exact ⟨h.2, rfl⟩

theorem thepaperItem_wf_title (base : SourceBase) (now : Nat) (r : Json)
    (h : thepaperWf r = true) :
    truthy (thepaperItem base now r).title = true ∧
    (thepaperItem base now r).timestamp = some now := by
  unfold thepaperWf at h
  simp only [Bool.and_eq_true] at h
  exact ⟨h.2, rfl⟩

theorem sspaiItem_wf_title (base : SourceBase) (now : Nat) (r : Json)
    (h : sspaiWf r = true) :
    truthy (sspaiItem base now r).title = true ∧
    (sspaiItem base now r).timestamp = some now := by
  unfold sspaiWf at h
  simp only [Bool.and_eq_true] at h
  exact ⟨h.2, rfl⟩

theorem wscnArticleItem_wf_title (base : SourceBase) (now : Nat) (r : Json)
    (h : wscnArticleWf r = true) :
    truthy (wscnArticleItem base now r).title = true ∧
    (wscnArticleItem base now r).timestamp = some now := by
  unfold wscnArticleWf at h
  simp only [Bool.and_eq_true] at h
  exact ⟨h.2, rfl⟩

theorem wscnLiveItem_wf_title (base : SourceBase) (now : Nat) (r : Json)
    (h : wscnLiveWf r = true) :
    truthy (wscnLiveItem base now r).title = true ∧
    (wscnLiveItem base now r).timestamp = some now := by
  refine ⟨?_, rfl⟩
  unfold wscnLiveWf at h
  simp only [Bool.and_eq_true] at h
  have h2 := h.2
  show truthy (.str (strip_html (jsonAsStr (r.getD "content" (.str ""))))) = true
  cases hc : r.getD "content" (.str "") with
  | str s =>
    rw [hc] at h2
    simp only [Bool.and_eq_true] at h2
    simp [jsonAsStr, truthy]
    simpa using h2.2
  | null => rw [hc] at h2; simp at h2
  | bool b => rw [hc] at h2; simp at h2
  | num n => rw [hc] at h2; simp at h2
  | arr xs => rw [hc] at h2; simp at h2
  | obj fs => rw [hc] at h2; simp at h2

/-- C2 (amended): for every API-kind extractor and every response whose
records all have benign shape (dicts, with dict nested fields where the
extractor navigates), the result is defined — one Item per well-formed
record, in order — and every returned Item has a truthy (non-empty) title
and its `fetched_at` timestamp set.  (Without the benign-shape
restriction the property fails: a malformed record aborts the fetch, see
the counterexample.) -/
theorem C2_wellformed_record_extraction :
    (∀ (env : Env) (base : SourceBase) (url : Json) (dfs : List (String × Json))
      (records : List Json),
      env.transport url .null = .ok (.obj dfs) →
      dfs.lookup "data" = some (.arr records) →
      (∀ r ∈ records, zhihuBenign r = true) →
      zhihuFetchApi env base url =
        (.ok ((records.filter zhihuWf).map (zhihuItem base env.now)), 1) ∧
      ∀ it ∈ (records.filter zhihuWf).map (zhihuItem base env.now),
        truthy it.title = true ∧ it.timestamp = some env.now) ∧
    (∀ (env : Env) (base : SourceBase) (url : Json) (dfs d2 : List (String × Json))
      (records : List Json),
      env.transport url .null = .ok (.obj dfs) →
      dfs.lookup "data" = some (.obj d2) →
      d2.lookup "hotNews" = some (.arr records) →
      (∀ r ∈ records, thepaperBenign r = true) →
      thepaperFetchApi env base url =
        (.ok ((records.filter thepaperWf).map (thepaperItem base env.now)), 1) ∧
      ∀ it ∈ (records.filter thepaperWf).map (thepaperItem base env.now),
        truthy it.title = true ∧ it.timestamp = some env.now) ∧
    (∀ (env : Env) (base : SourceBase) (url : Json) (pfs dfs : List (String × Json))
      (records : List Json),
      env.transport url (.obj (setField pfs "created_at" (.num env.now))) = .ok (.obj dfs) →
      dfs.lookup "data" = some (.arr records) →
      (∀ r ∈ records, sspaiBenign r = true) →
      sspaiFetchApi env base url (.obj pfs) =
        (.ok ((records.filter sspaiWf).map (sspaiItem base env.now)), 1) ∧
      ∀ it ∈ (records.filter sspaiWf).map (sspaiItem base env.now),
        truthy it.title = true ∧ it.timestamp = some env.now) ∧
    (∀ (base : SourceBase) (now : Nat) (dfs d2 : List (String × Json))
      (records : List Json),
      dfs.lookup "data" = some (.obj d2) →
      d2.lookup "items" = some (.arr records) →
      (∀ r ∈ records, wscnLiveBenign r = true) →
      wscnParseEndpoint base now "live" (.obj dfs) =
        .ok ((records.filter wscnLiveWf).map (wscnLiveItem base now)) ∧
      ∀ it ∈ (records.filter wscnLiveWf).map (wscnLiveItem base now),
        truthy it.title = true ∧ it.timestamp = some now) ∧
    (∀ (base : SourceBase) (now : Nat) (dfs d2 : List (String × Json))
      (records : List Json),
      dfs.lookup "data" = some (.obj d2) →
      d2.lookup "items" = some (.arr records) →
      (∀ r ∈ records, wscnArticleBenign r = true) →
      wscnParseEndpoint base now "news" (.obj dfs) =
        .ok ((records.filter wscnArticleWf).map (wscnArticleItem base now)) ∧
      ∀ it ∈ (records.filter wscnArticleWf).map (wscnArticleItem base now),
        truthy it.title = true ∧ it.timestamp = some now) := by
  refine ⟨?_, ?_, ?_, ?_, ?_⟩
  · intro env base url dfs records ht hd hb
    refine ⟨?_, ?_⟩
    · rw [zhihuFetchApi_ok env base url _ ht,
        zhihuParse_eq base env.now dfs records hd hb]
    · exact items_prop records _ (fun r hwf => zhihuItem_wf_title base env.now r hwf)
  · intro env base url dfs d2 records ht hd hh hb
    refine ⟨?_, ?_⟩
    · rw [thepaperFetchApi_ok env base url _ ht,
        thepaperParse_eq base env.now dfs d2 records hd hh hb]
    · exact items_prop records _ (fun r hwf => thepaperItem_wf_title base env.now r hwf)
  · intro env base url pfs dfs records ht hd hb
    refine ⟨?_, ?_⟩
    · rw [sspaiFetchApi_ok env base url pfs _ ht,
        sspaiParse_eq base env.now dfs records hd hb]
    · exact items_prop records _ (fun r hwf => sspaiItem_wf_title base env.now r hwf)
  · intro base now dfs d2 records hd hi hb
    refine ⟨?_, ?_⟩
    · exact wscnParseLive_eq base now dfs d2 records hd hi hb
    · exact items_prop records _ (fun r hwf => wscnLiveItem_wf_title base now r hwf)
  · intro base now dfs d2 records hd hi hb
    refine ⟨?_, ?_⟩
    · exact wscnParseNews_eq base now dfs d2 records hd hi hb
    · exact items_prop records _ (fun r hwf => wscnArticleItem_wf_title base now r hwf)

/-- C2 counterexample: an Sspai response containing one well-formed record
and one malformed record (the number `7`) yields no list at all — the
fetch raises `AttributeError` — although the response contains exactly one
well-formed record. -/
theorem C2_counterexample :
    (sspaiFetchApi (fixedEnv (.obj [("data", .arr [.obj [("title", .str "A")], .num 7])]) [])
      (apiBase "sspai") (.str "u") (.obj [])).1 = .error .attributeError ∧
    ([Json.obj [("title", .str "A")], .num 7].filter sspaiWf).length = 1 :=
  ⟨rfl, rfl⟩

/-- Witness for C2 at a concrete Zhihu response with one well-formed
record. -/
theorem C2_witness :
    zhihuFetchApi (fixedEnv zhihuFixture []) (apiBase "zhihu") (.str "u") =
      (.ok (([Json.obj [("target", .obj [
          ("title_area", .obj [("text", .str "Example")]),
          ("url", .str "http://x"),
          ("excerpt_area", .obj [("text", .str "Body")])])]].filter zhihuWf).map
        (zhihuItem (apiBase "zhihu") 7)), 1) :=
  (C2_wellformed_record_extraction.1 (fixedEnv zhihuFixture []) (apiBase "zhihu")
    (.str "u") _ _ rfl rfl (by decide)).1

end FetchNews
